import Mathlib

/-!
# Verification development for `starter/kube/deployment.go`

A shallow embedding of the deployment helper of package `kube`: the three
descriptor builders (`Deploy`, `ExtensionsV1beta1Deploy`, `DeployNode`), the
update-then-create submission they perform through the cluster client, and
`Delete`.

Modelling conventions.

* Go strings are `String`; `int32` and `int` values are `Int` (conversions that
  can truncate are written out with an explicit wrap, see `int32OfInt`).
* A Go slice is a `List` (a nil slice and an empty slice are both `[]`; the
  source never compares a slice with nil).
* A Go `map[string]string` is the list of its entries, `GoMap`; a nil map and
  an empty map are both `[]` (the source never compares a map with nil and
  never writes to a caller-supplied map).  A map has distinct keys; where a
  property depends on that it is stated as the hypothesis `GoMap.WF`.
* A `range` loop over a map visits the entries in an order Go leaves
  unspecified.  The order each loop takes is an explicit argument of
  `DeployNode` (`envsRange`, `volumesRange`), constrained in theorems by
  `GoMap.IsRange`: it is a permutation of the entries of the map.
* A Go field named `Type` is written `Type_`.
* A pointer that may be nil is an `Option`; an `error` is `Option GoError`
  with `none` for nil.
* The cluster client is an interface value; it is modelled as a record of
  state-passing functions over an arbitrary state type.  Every embedded
  operation returns a `Run`: the returned values, the list of client calls it
  made in order, and the client state afterwards.
-/

set_option linter.dupNamespace false
set_option linter.unusedVariables false

namespace Kube

/-! ## Data model -/

/-- Entries of a Go `map[string]string`. -/
abbrev GoMap := List (String × String)

/-- Keys of a map are pairwise distinct. -/
def GoMap.WF (m : GoMap) : Prop := (m.map Prod.fst).Nodup

/-- Reading `m[k]` with the comma-ok form: the value stored under `k`, if any. -/
def GoMap.get? (m : GoMap) (k : String) : Option String :=
  (m.find? (fun e => e.1 == k)).map Prod.snd

/-- The sequence `it` is an order in which a `range` loop may visit `m`. -/
def GoMap.IsRange (m : GoMap) (it : List (String × String)) : Prop := it.Perm m

/-- Kinds of error a caller can tell apart: the typed errors of the cluster
client and the errors made by `fmt.Errorf`. -/
inductive ErrKind where
  | notFound
  | alreadyExists
  | conflict
  | invalid
  | transportFailure
  | formatted
deriving DecidableEq, Repr

/-- A non-nil Go `error` value. -/
structure GoError where
  kind : ErrKind
  msg : String
deriving DecidableEq, Repr

/-- The method `err.Error()`, and the text `%s` prints for a nil error. -/
def errorString : Option GoError → String
  | none => "%!s(<nil>)"
  | some e => e.msg

/-- The call `fmt.Errorf(format, err)` for a format that ends in `%s`. -/
def fmt_Errorf (head : String) (err : Option GoError) : GoError :=
  ⟨ErrKind.formatted, head ++ errorString err⟩

/-- The type `corev1.EnvVar` (fields the source sets). -/
structure EnvVar where
  Name : String
  Value : String
deriving DecidableEq, Repr

/-- The type `corev1.ContainerPort` (fields the source sets). -/
structure ContainerPort where
  Name : String
  Protocol : String
  ContainerPort : Int
deriving DecidableEq, Repr

/-- The type `intstr.Type`. -/
inductive IntstrType where
  | Int
  | String
deriving DecidableEq, Repr

/-- The type `intstr.IntOrString`. -/
structure IntOrString where
  Type_ : IntstrType
  IntVal : Int
  StrVal : String := ""
deriving DecidableEq, Repr

/-- The type `extensionsV1beta1.RollingUpdateDeployment`. -/
structure RollingUpdateDeployment where
  MaxUnavailable : Option IntOrString
  MaxSurge : Option IntOrString
deriving DecidableEq, Repr

/-- The type `extensionsV1beta1.DeploymentStrategy`. -/
structure DeploymentStrategy where
  Type_ : String
  RollingUpdate : Option RollingUpdateDeployment
deriving DecidableEq, Repr

/-- The type `metav1.TypeMeta`. -/
structure TypeMeta where
  Kind : String := ""
  APIVersion : String := ""
deriving DecidableEq, Repr

/-- The type `metav1.ObjectMeta` (fields the source sets). -/
structure ObjectMeta where
  Name : String := ""
  Namespace : String := ""
  Labels : GoMap := []
deriving DecidableEq, Repr

/-- The type `metav1.LabelSelector` (field the source sets). -/
structure LabelSelector where
  MatchLabels : GoMap
deriving DecidableEq, Repr

/-- The type `corev1.HostPathVolumeSource` (field the source sets). -/
structure HostPathVolumeSource where
  Path : String
deriving DecidableEq, Repr

/-- The type `corev1.VolumeSource` (field the source sets). -/
structure VolumeSource where
  HostPath : Option HostPathVolumeSource := none
deriving DecidableEq, Repr

/-- The type `corev1.Volume`. -/
structure Volume where
  Name : String
  VolumeSource : VolumeSource
deriving DecidableEq, Repr

/-- The type `corev1.VolumeMount` (fields the source sets). -/
structure VolumeMount where
  Name : String
  MountPath : String
deriving DecidableEq, Repr

/-- The type `corev1.Container` (fields the source sets). -/
structure Container where
  Name : String
  Image : String
  Ports : List ContainerPort
  Env : List EnvVar
  ImagePullPolicy : String
  VolumeMounts : List VolumeMount := []
deriving DecidableEq, Repr

/-- The type `corev1.PodSpec` (fields the source sets). -/
structure PodSpec where
  Containers : List Container
  Volumes : List Volume := []
deriving DecidableEq, Repr

/-- The type `corev1.PodTemplateSpec`. -/
structure PodTemplateSpec where
  ObjectMeta : ObjectMeta
  Spec : PodSpec
deriving DecidableEq, Repr

/-- The type `extensionsV1beta1.DeploymentSpec` (fields the source sets). -/
structure DeploymentSpec where
  Replicas : Option Int
  Strategy : DeploymentStrategy
  Selector : Option LabelSelector := none
  RevisionHistoryLimit : Option Int
  Template : PodTemplateSpec
deriving DecidableEq, Repr

/-- The type `extensionsV1beta1.Deployment`: the workload descriptor. -/
structure Deployment where
  TypeMeta : TypeMeta := {}
  ObjectMeta : ObjectMeta
  Spec : DeploymentSpec
deriving DecidableEq, Repr

/-- The type `metav1.DeleteOptions` (kept abstract: the source only forwards it). -/
structure DeleteOptions where
  GracePeriodSeconds : Option Int := none
  PropagationPolicy : Option String := none
deriving DecidableEq, Repr

/-- The constant `extensionsV1beta1.RollingUpdateDeploymentStrategyType`. -/
def RollingUpdateDeploymentStrategyType : String := "RollingUpdate"

/-- The constant `corev1.PullAlways`. -/
def PullAlways : String := "Always"

/-- The constant `corev1.PullIfNotPresent`. -/
def PullIfNotPresent : String := "IfNotPresent"

/-- The constant `corev1.ProtocolTCP`. -/
def ProtocolTCP : String := "TCP"

/-- The helper `int32Ptr`: a non-nil pointer to `i`. -/
def int32Ptr (i : Int) : Option Int := some i

/-- The conversion `int32(x)` of an `int`: keep the low 32 bits, two's complement. -/
def int32OfInt (x : Int) : Int := (x + 2 ^ 31) % 2 ^ 32 - 2 ^ 31

/-- The text `%d` prints for an integer. -/
def sprintf_d (i : Int) : String := toString i

/-! ## The cluster client -/

/-- One call on the namespaced collection `clientSet.ExtensionsV1beta1().Deployments(ns)`. -/
inductive Call where
  | update (ns : String) (d : Deployment)
  | create (ns : String) (d : Deployment)
  | delete (ns : String) (name : String) (options : Option DeleteOptions)
deriving DecidableEq, Repr

/-- The interface `kubernetes.Interface` as far as the source uses it: the
three verbs of the deployment collection of a namespace, over a client state `σ`.
`update` and `create` return the pair `(result, err)` of the Go call. -/
structure Client (σ : Type) where
  update : String → Deployment → σ → (Option Deployment × Option GoError) × σ
  create : String → Deployment → σ → (Option Deployment × Option GoError) × σ
  delete : String → String → Option DeleteOptions → σ → Option GoError × σ

/-- What one operation did: the values it returned, the client calls it made
(in order) and the client state it left. -/
structure Run (σ : Type) (α : Type) where
  ret : α
  calls : List Call
  state : σ

/-- The type `Deployment` of the source: the holder of the client set. -/
structure DeploymentClient (σ : Type) where
  clientSet : Client σ

/-- The constructor `newDeployment`. -/
def newDeployment {σ : Type} (clientSet : Client σ) : DeploymentClient σ :=
  { clientSet := clientSet }

/-! ## `Deploy` -/

/-- The descriptor `deploySpec` that `Deploy` builds (lines 51-97). -/
def Deploy_deploySpec (app project imageTag dockerRegistry : String)
    (env : List EnvVar) (_labels : GoMap) (ports : List ContainerPort)
    (_replicas : Int) (_force : Bool) (_healthEndPoint _nodeSelector : GoMap) : Deployment :=
  { ObjectMeta :=
      { Name := app
        Namespace := project
        Labels := [("app", app), ("version", imageTag)] }
    Spec :=
      { Replicas := int32Ptr 1
        Strategy :=
          { Type_ := RollingUpdateDeploymentStrategyType
            RollingUpdate := some
              { MaxUnavailable := some { Type_ := IntstrType.Int, IntVal := 0 }
                MaxSurge := some { Type_ := IntstrType.Int, IntVal := 1 } } }
        RevisionHistoryLimit := int32Ptr 10
        Template :=
          { ObjectMeta :=
              { Name := app
                Labels := [("app", app), ("version", imageTag)] }
            Spec :=
              { Containers :=
                  [ { Name := app
                      Image := dockerRegistry ++ "/" ++ project ++ "/" ++ app ++ ":" ++ imageTag
                      Ports := ports
                      Env := env
                      ImagePullPolicy := PullAlways } ] } } } }

/-- The method `Deployment.Deploy`: build the descriptor, call update on the
collection of namespace `project`, and go through the `switch` on the update
error (lines 105-116). -/
def Deploy {σ : Type} (d : DeploymentClient σ) (s : σ)
    (app project imageTag dockerRegistry : String)
    (env : List EnvVar) (labels : GoMap) (ports : List ContainerPort)
    (replicas : Int) (force : Bool) (healthEndPoint nodeSelector : GoMap) :
    Run σ (Option Deployment × Option GoError) :=
  let deploySpec := Deploy_deploySpec app project imageTag dockerRegistry env labels ports
    replicas force healthEndPoint nodeSelector
  let u := d.clientSet.update project deploySpec s
  let result := u.1.1
  let err := u.1.2
  if err = none then
    { ret := (result, err), calls := [Call.update project deploySpec], state := u.2 }
  else if err ≠ none then
    let c := d.clientSet.create project deploySpec u.2
    { ret := (c.1.1, c.1.2)
      calls := [Call.update project deploySpec, Call.create project deploySpec]
      state := c.2 }
  else
    { ret := (result, some (fmt_Errorf "could not update deployment controller: " err))
      calls := [Call.update project deploySpec]
      state := u.2 }

/-! ## `ExtensionsV1beta1Deploy` -/

/-- A run-time panic of the Go program. -/
inductive Panic where
  | indexOutOfRange (index : Nat) (length : Nat)
deriving DecidableEq, Repr

/-- Library functions the source calls and this repository does not define.
`Loose` is the dynamic type behind the `interface{}` parameters.
* `copyEnv e env` is `copier.Copy(&e, env)`: the slice left in `e` and the
  error the call returns (the source discards that error);
* `copyPorts p ports` is `copier.Copy(&p, ports)`, likewise;
* `sprintf_q result` is the text `%q` prints for a `*Deployment`;
* `json_Marshal x` is the text of `json.Marshal(x)`. -/
structure Lib (Loose : Type) where
  copyEnv : List EnvVar → Loose → List EnvVar × Option GoError
  copyPorts : List ContainerPort → Loose → List ContainerPort × Option GoError
  sprintf_q : Option Deployment → String
  json_Marshal : Option Deployment → String

/-- Worker of `strings_Split`: `cur` holds the current piece, reversed. -/
def strings_SplitAux (sep : Char) : List Char → List Char → List String
  | [], cur => [String.mk cur.reverse]
  | c :: cs, cur =>
    if c = sep then String.mk cur.reverse :: strings_SplitAux sep cs []
    else strings_SplitAux sep cs (c :: cur)

/-- The call `strings.Split(s, sep)` for a separator of one character. -/
def strings_Split (s : String) (sep : Char) : List String :=
  strings_SplitAux sep s.data []

/-- The index expression `xs[i]`: panics when `i` is out of range. -/
def index (xs : List String) (i : Nat) : Except Panic String :=
  match xs.get? i with
  | some x => Except.ok x
  | none => Except.error (Panic.indexOutOfRange i xs.length)

/-- The local map `selector` of `ExtensionsV1beta1Deploy` (lines 124-127). -/
def ExtensionsV1beta1Deploy_selector (nodeSelector : String) : Except Panic GoMap :=
  if nodeSelector ≠ "" then
    match index (strings_Split nodeSelector (Char.ofNat 61)) 0 with
    | Except.error p => Except.error p
    | Except.ok k =>
      match index (strings_Split nodeSelector (Char.ofNat 61)) 1 with
      | Except.error p => Except.error p
      | Except.ok v => Except.ok [(k, v)]
  else Except.ok []

/-- The descriptor `deploySpec` that `ExtensionsV1beta1Deploy` builds (lines
130-175) from the converted slices `e` and `p`. -/
def ExtensionsV1beta1Deploy_deploySpec (app project imageTag dockerRegistry : String)
    (e : List EnvVar) (labels : GoMap) (p : List ContainerPort)
    (_replicas : Int) (_force : Bool) (_healthEndPoint : String) (_selector : GoMap) :
    Deployment :=
  { ObjectMeta :=
      { Name := app
        Namespace := project }
    Spec :=
      { Replicas := int32Ptr 1
        Strategy :=
          { Type_ := RollingUpdateDeploymentStrategyType
            RollingUpdate := some
              { MaxUnavailable := some { Type_ := IntstrType.Int, IntVal := 0 }
                MaxSurge := some { Type_ := IntstrType.Int, IntVal := 1 } } }
        Selector := some { MatchLabels := [("app", app), ("version", imageTag)] }
        RevisionHistoryLimit := int32Ptr 10
        Template :=
          { ObjectMeta :=
              { Name := app
                Labels := labels }
            Spec :=
              { Containers :=
                  [ { Name := app
                      Image := dockerRegistry ++ "/" ++ project ++ "/" ++ app ++ ":" ++ imageTag
                      Ports := p
                      Env := e
                      ImagePullPolicy := PullAlways } ] } } } }

/-- The method `Deployment.ExtensionsV1beta1Deploy`.  The result is the panic
raised before any client call, or the run of the update-then-create `switch`
(lines 183-196). -/
def ExtensionsV1beta1Deploy {σ Loose : Type} (L : Lib Loose) (d : DeploymentClient σ) (s : σ)
    (app project imageTag dockerRegistry : String)
    (env : Loose) (labels : GoMap) (ports : Loose)
    (replicas : Int) (force : Bool) (healthEndPoint nodeSelector : String) :
    Except Panic (Run σ (String × Option GoError)) :=
  let e := (L.copyEnv [] env).1
  match ExtensionsV1beta1Deploy_selector nodeSelector with
  | Except.error pn => Except.error pn
  | Except.ok selector =>
    let p := (L.copyPorts [] ports).1
    let deploySpec := ExtensionsV1beta1Deploy_deploySpec app project imageTag dockerRegistry
      e labels p replicas force healthEndPoint selector
    let u := d.clientSet.update project deploySpec s
    let result := u.1.1
    let err := u.1.2
    let retVal := ""
    if err = none then
      Except.ok { ret := (retVal, err), calls := [Call.update project deploySpec], state := u.2 }
    else if err ≠ none then
      let c := d.clientSet.create project deploySpec u.2
      let retVal := "Created deployment " ++ L.sprintf_q result ++ ".\n"
      Except.ok
        { ret := (retVal, c.1.2)
          calls := [Call.update project deploySpec, Call.create project deploySpec]
          state := c.2 }
    else
      Except.ok
        { ret := (retVal, some (fmt_Errorf "could not update deployment controller: " err))
          calls := [Call.update project deploySpec]
          state := u.2 }

/-! ## `DeployNode` -/

/-- The type `DeployData`. -/
structure DeployData where
  Name : String
  NameSpace : String
  Replicas : Int
  Labels : GoMap
  Image : String
  Ports : List Int
  Envs : GoMap
  HostPathVolume : GoMap
deriving DecidableEq, Repr

/-- The loop over `deployData.Ports` (lines 214-221): one `append` per port. -/
def DeployNode_containerPorts (ports : List Int) : List ContainerPort :=
  ports.foldl
    (fun containerPorts port =>
      containerPorts ++
        [{ Name := "http-" ++ sprintf_d port
           Protocol := ProtocolTCP
           ContainerPort := int32OfInt port }])
    []

/-- The loop over `deployData.Envs` (lines 224-230), visiting the entries in
the order `envsRange`. -/
def DeployNode_envs (envsRange : List (String × String)) : List EnvVar :=
  envsRange.foldl (fun envs kv => envs ++ [{ Name := kv.1, Value := kv.2 }]) []

/-- The variables the volume loop updates: the counter `i` and the two slices. -/
structure VolumeLoop where
  i : Int
  Volumes : List Volume
  VolumeMounts : List VolumeMount
deriving DecidableEq, Repr

/-- One iteration of the volume loop (lines 237-251) on the entry `k, v`.
The counter is not wrapped: a Go map holds fewer than `2 ^ 63` entries. -/
def DeployNode_volumeStep (st : VolumeLoop) (kv : String × String) : VolumeLoop :=
  let i := st.i + 1
  let volumeName := "volume" ++ sprintf_d i
  { i := i
    Volumes := st.Volumes ++
      [{ Name := volumeName, VolumeSource := { HostPath := some { Path := kv.1 } } }]
    VolumeMounts := st.VolumeMounts ++ [{ Name := volumeName, MountPath := kv.2 }] }

/-- The loop over `deployData.HostPathVolume` (lines 233-252), visiting the
entries in the order `volumesRange`. -/
def DeployNode_volumes (volumesRange : List (String × String)) : VolumeLoop :=
  volumesRange.foldl DeployNode_volumeStep { i := 0, Volumes := [], VolumeMounts := [] }

/-- The descriptor `deploySpec` that `DeployNode` builds (lines 254-299). -/
def DeployNode_deploySpec (deployData : DeployData)
    (envsRange volumesRange : List (String × String)) : Deployment :=
  let containerPorts := DeployNode_containerPorts deployData.Ports
  let envs := DeployNode_envs envsRange
  let vl := DeployNode_volumes volumesRange
  { TypeMeta := { Kind := "Deployment", APIVersion := "extensions/v1beta1" }
    ObjectMeta :=
      { Name := deployData.Name
        Namespace := deployData.NameSpace }
    Spec :=
      { Replicas := int32Ptr deployData.Replicas
        Strategy :=
          { Type_ := RollingUpdateDeploymentStrategyType
            RollingUpdate := some
              { MaxUnavailable := some { Type_ := IntstrType.Int, IntVal := 0 }
                MaxSurge := some { Type_ := IntstrType.Int, IntVal := 1 } } }
        RevisionHistoryLimit := int32Ptr 10
        Template :=
          { ObjectMeta :=
              { Name := deployData.Name
                Labels := deployData.Labels }
            Spec :=
              { Containers :=
                  [ { Name := deployData.Name
                      Image := deployData.Image
                      Ports := containerPorts
                      Env := envs
                      ImagePullPolicy := PullIfNotPresent
                      VolumeMounts := vl.VolumeMounts } ]
                Volumes := vl.Volumes } } } }

/-- The method `Deployment.DeployNode` on a non-nil `deployData`: build the
descriptor and call create on the collection of `deployData.NameSpace`
(lines 301-306). -/
def DeployNode {σ Loose : Type} (L : Lib Loose) (d : DeploymentClient σ) (s : σ)
    (deployData : DeployData) (envsRange volumesRange : List (String × String)) :
    Run σ (String × Option GoError) :=
  let deploySpec := DeployNode_deploySpec deployData envsRange volumesRange
  let c := d.clientSet.create deployData.NameSpace deploySpec s
  let deployment := c.1.1
  let err := c.1.2
  if err ≠ none then
    { ret := ("", err), calls := [Call.create deployData.NameSpace deploySpec], state := c.2 }
  else
    { ret := (L.json_Marshal deployment, none)
      calls := [Call.create deployData.NameSpace deploySpec]
      state := c.2 }

/-! ## `Delete` -/

/-- The method `Deployment.Delete` (lines 309-313). -/
def Delete {σ : Type} (d : DeploymentClient σ) (s : σ)
    (name namespace_ : String) (option : Option DeleteOptions) : Run σ (Option GoError) :=
  let r := d.clientSet.delete namespace_ name option s
  { ret := r.1, calls := [Call.delete namespace_ name option], state := r.2 }

/-! ## Vocabulary of the properties -/

/-- The descriptor a call submits, if it submits one. -/
def Call.descriptor? : Call → Option Deployment
  | Call.update _ d => some d
  | Call.create _ d => some d
  | Call.delete _ _ _ => none

/-- The call is a create. -/
def Call.isCreate : Call → Bool
  | Call.create _ _ => true
  | _ => false

/-- The call is an update. -/
def Call.isUpdate : Call → Bool
  | Call.update _ _ => true
  | _ => false

/-- The descriptors an operation submitted to the client, in order. -/
def Run.submitted {σ α : Type} (r : Run σ α) : List Deployment :=
  r.calls.filterMap Call.descriptor?

/-- The rolling-update policy and the retention bound of the descriptor are the
fixed ones: strategy type rolling-update, integer max-unavailable 0, integer
max-surge 1, revision-history limit 10. -/
def FixedPolicy (d : Deployment) : Prop :=
  d.Spec.Strategy.Type_ = "RollingUpdate" ∧
  d.Spec.Strategy.RollingUpdate =
    some { MaxUnavailable := some { Type_ := IntstrType.Int, IntVal := 0, StrVal := "" }
           MaxSurge := some { Type_ := IntstrType.Int, IntVal := 1, StrVal := "" } } ∧
  d.Spec.RevisionHistoryLimit = some 10

/-- The label mapping holds `app` with the application name and `version` with
the image tag. -/
def CarriesAppVersion (labels : GoMap) (app imageTag : String) : Prop :=
  labels.get? "app" = some app ∧ labels.get? "version" = some imageTag

/-- The path of a host-path volume (the empty string for another source). -/
def Volume.hostPath (v : Volume) : String :=
  match v.VolumeSource.HostPath with
  | some h => h.Path
  | none => ""

/-- Join of volumes and mounts by volume name: one pair (host path, mount path)
for every volume and every mount that carries the name of that volume. -/
def joinByName (volumes : List Volume) (mounts : List VolumeMount) : List (String × String) :=
  volumes.flatMap fun v =>
    (mounts.filter fun m => m.Name == v.Name).map fun m => (v.hostPath, m.MountPath)

/-! ## A model cluster -/

/-- State of the model cluster: the stored workloads, each with the namespace
of the collection it was written through. -/
abbrev Cluster := List (String × Deployment)

/-- The identity (namespace, name) of a stored workload. -/
def Cluster.key (e : String × Deployment) : String × String := (e.1, e.2.ObjectMeta.Name)

/-- The cluster stores a workload under (namespace, name). -/
def Cluster.has (cl : Cluster) (ns name : String) : Bool :=
  cl.any fun e => Cluster.key e == (ns, name)

/-- The workloads stored under (namespace, name). -/
def Cluster.stored (cl : Cluster) (ns name : String) : List Deployment :=
  (cl.filter fun e => Cluster.key e == (ns, name)).map Prod.snd

/-- The cluster stores at most one workload per (namespace, name). -/
def Cluster.WF (cl : Cluster) : Prop := (cl.map Cluster.key).Nodup

/-- Replace the workload stored under the identity of `d` in namespace `ns`. -/
def Cluster.replace (ns : String) (d : Deployment) (e : String × Deployment) :
    String × Deployment :=
  if Cluster.key e == (ns, d.ObjectMeta.Name) then (ns, d) else e

/-- The model cluster as a client: update answers not-found when the key is
absent and otherwise replaces the stored workload; create answers
already-exists when the key is present and otherwise stores the workload;
delete removes the workload or answers not-found. -/
def modelClient : Client Cluster where
  update ns d cl :=
    if cl.has ns d.ObjectMeta.Name then ((some d, none), cl.map (Cluster.replace ns d))
    else ((none, some ⟨ErrKind.notFound, "not found"⟩), cl)
  create ns d cl :=
    if cl.has ns d.ObjectMeta.Name then
      ((none, some ⟨ErrKind.alreadyExists, "already exists"⟩), cl)
    else ((some d, none), cl ++ [(ns, d)])
  delete ns name _ cl :=
    if cl.has ns name then (none, cl.filter fun e => !(Cluster.key e == (ns, name)))
    else (some ⟨ErrKind.notFound, "not found"⟩, cl)

/-- A client without state whose update always fails with `e` and whose create
always succeeds, acknowledging the descriptor it was given. -/
def failingUpdateClient (e : GoError) : Client Unit where
  update _ _ s := ((none, some e), s)
  create _ d s := ((some d, none), s)
  delete _ _ _ s := (none, s)

/-- A client without state whose calls all succeed. -/
def acceptingClient : Client Unit where
  update _ d s := ((some d, none), s)
  create _ d s := ((some d, none), s)
  delete _ _ _ s := (none, s)

/-- Library stand-ins for concrete runs: conversion leaves the slice as it
was, and the printed texts are fixed. -/
def sampleLib : Lib Unit where
  copyEnv e _ := (e, none)
  copyPorts p _ := (p, none)
  sprintf_q _ := "<deployment>"
  json_Marshal _ := "<json>"

/-- The conflict error of the cluster client. -/
def conflictError : GoError := ⟨ErrKind.conflict, "the object has been modified"⟩

/-- The library on sources that are strings (`Loose` is `String`):
`copier.Copy` from a string into a slice of structs converts nothing, leaves
the slice as it was and returns a nil error.  The printed texts are fixed. -/
def stringSourceLib : Lib String where
  copyEnv e _ := (e, none)
  copyPorts p _ := (p, none)
  sprintf_q _ := "<deployment>"
  json_Marshal _ := "<json>"

/-- The image reference is digest-addressed: it holds the character `@` that
introduces a digest such as `@sha256:...`. -/
def isDigestAddressed (image : String) : Bool := image.data.contains (Char.ofNat 64)

/-! ## Closed forms used in the proofs -/

/-- Value of a digit character. -/
def digitValue (c : Char) : Nat := c.toNat - 48

/-- Value of a string of decimal digits, most significant first. -/
def decimalValue (cs : List Char) : Nat := cs.foldl (fun acc c => 10 * acc + digitValue c) 0

/-- The entries the volume loop visits, each with the volume name the loop
generates for it, when the counter is `i` before the first of them. -/
def namedEntries (i : Int) : List (String × String) → List (String × (String × String))
  | [] => []
  | kv :: t => ("volume" ++ sprintf_d (i + 1), kv) :: namedEntries (i + 1) t

/-- The volume the loop appends for a named entry. -/
def volumeOf (t : String × (String × String)) : Volume :=
  { Name := t.1, VolumeSource := { HostPath := some { Path := t.2.1 } } }

/-- The volume mount the loop appends for a named entry. -/
def mountOf (t : String × (String × String)) : VolumeMount :=
  { Name := t.1, MountPath := t.2.2 }

/-- The environment entry the env loop appends for a visited entry. -/
def envOf (kv : String × String) : EnvVar := { Name := kv.1, Value := kv.2 }

/-- The container port the port loop appends for a requested port. -/
def portOf (port : Int) : ContainerPort :=
  { Name := "http-" ++ sprintf_d port, Protocol := ProtocolTCP, ContainerPort := int32OfInt port }

/-! ## Theorems: the update-then-create submission -/

/-- C1 (evaluation at the failing input): against a client whose update fails
with a conflict error, `Deploy` and `ExtensionsV1beta1Deploy` both go on to call
create after the update, and return a nil error instead of the conflict. -/
theorem Deploy_conflict_reaches_create :
    (Deploy (newDeployment (failingUpdateClient conflictError)) ()
        "hello-world" "demo" "v1" "registry" [] [] [] 2 false [] []).calls.map Call.isCreate
      = [false, true] ∧
    (Deploy (newDeployment (failingUpdateClient conflictError)) ()
        "hello-world" "demo" "v1" "registry" [] [] [] 2 false [] []).ret.2 = none ∧
    ∃ r, ExtensionsV1beta1Deploy sampleLib (newDeployment (failingUpdateClient conflictError)) ()
        "hello-world" "demo" "v1" "registry" () [] () 2 false "" "" = Except.ok r ∧
      r.calls.map Call.isCreate = [false, true] ∧ r.ret.2 = none := by
  refine ⟨by decide, by decide, ?_⟩
  exact ⟨_, rfl, by decide, by decide⟩

/-- C2: when the update call of `Deploy` fails with a not-found error, `Deploy`
makes exactly one update call followed by exactly one create call, both on the
collection of namespace `project` and both with the same descriptor, whose name
is `app` and whose namespace is `project`; what `Deploy` returns is exactly the
(descriptor, error) pair of the create call, and the client is left in the state
after that create. -/
theorem Deploy_notFound_update_then_create {σ : Type} (d : DeploymentClient σ) (s : σ)
    (app project imageTag dockerRegistry : String)
    (env : List EnvVar) (labels : GoMap) (ports : List ContainerPort)
    (replicas : Int) (force : Bool) (healthEndPoint nodeSelector : GoMap)
    (e : GoError) (hkind : e.kind = ErrKind.notFound)
    (hupd : (d.clientSet.update project
      (Deploy_deploySpec app project imageTag dockerRegistry env labels ports
        replicas force healthEndPoint nodeSelector) s).1.2 = some e) :
    (Deploy d s app project imageTag dockerRegistry env labels ports
        replicas force healthEndPoint nodeSelector).calls =
      [Call.update project (Deploy_deploySpec app project imageTag dockerRegistry env labels
          ports replicas force healthEndPoint nodeSelector),
       Call.create project (Deploy_deploySpec app project imageTag dockerRegistry env labels
          ports replicas force healthEndPoint nodeSelector)] ∧
    (Deploy_deploySpec app project imageTag dockerRegistry env labels ports
        replicas force healthEndPoint nodeSelector).ObjectMeta.Name = app ∧
    (Deploy_deploySpec app project imageTag dockerRegistry env labels ports
        replicas force healthEndPoint nodeSelector).ObjectMeta.Namespace = project ∧
    (Deploy d s app project imageTag dockerRegistry env labels ports
        replicas force healthEndPoint nodeSelector).ret =
      (d.clientSet.create project
        (Deploy_deploySpec app project imageTag dockerRegistry env labels ports
          replicas force healthEndPoint nodeSelector)
        (d.clientSet.update project
          (Deploy_deploySpec app project imageTag dockerRegistry env labels ports
            replicas force healthEndPoint nodeSelector) s).2).1 ∧
    (Deploy d s app project imageTag dockerRegistry env labels ports
        replicas force healthEndPoint nodeSelector).state =
      (d.clientSet.create project
        (Deploy_deploySpec app project imageTag dockerRegistry env labels ports
          replicas force healthEndPoint nodeSelector)
        (d.clientSet.update project
          (Deploy_deploySpec app project imageTag dockerRegistry env labels ports
            replicas force healthEndPoint nodeSelector) s).2).2 := by
  refine ⟨?_, rfl, rfl, ?_, ?_⟩ <;> simp [Deploy, hupd]

/-- Witness of C2: on the empty model cluster the update of `hello-world` in
`demo` answers not-found, and `Deploy` makes the update and then the create. -/
theorem Deploy_notFound_update_then_create_witness :
    (Deploy (newDeployment modelClient) [] "hello-world" "demo" "v1" "registry" [] [] [] 2
        false [] []).calls =
      [Call.update "demo" (Deploy_deploySpec "hello-world" "demo" "v1" "registry" [] [] [] 2
          false [] []),
       Call.create "demo" (Deploy_deploySpec "hello-world" "demo" "v1" "registry" [] [] [] 2
          false [] [])] :=
  (Deploy_notFound_update_then_create (newDeployment modelClient) [] "hello-world" "demo" "v1"
    "registry" [] [] [] 2 false [] [] ⟨ErrKind.notFound, "not found"⟩ rfl rfl).1

/-- C3: if the update call of `Deploy` succeeds, `Deploy` makes no create call
(its only call is the update) and returns the descriptor returned by update with
a nil error; if the update fails and the create that follows succeeds, `Deploy`
returns the descriptor returned by create with a nil error. -/
theorem Deploy_success_returns_acknowledged {σ : Type} (d : DeploymentClient σ) (s : σ)
    (app project imageTag dockerRegistry : String)
    (env : List EnvVar) (labels : GoMap) (ports : List ContainerPort)
    (replicas : Int) (force : Bool) (healthEndPoint nodeSelector : GoMap) :
    ((d.clientSet.update project
        (Deploy_deploySpec app project imageTag dockerRegistry env labels ports
          replicas force healthEndPoint nodeSelector) s).1.2 = none →
      (Deploy d s app project imageTag dockerRegistry env labels ports
          replicas force healthEndPoint nodeSelector).calls =
        [Call.update project (Deploy_deploySpec app project imageTag dockerRegistry env labels
          ports replicas force healthEndPoint nodeSelector)] ∧
      (Deploy d s app project imageTag dockerRegistry env labels ports
          replicas force healthEndPoint nodeSelector).ret =
        ((d.clientSet.update project
          (Deploy_deploySpec app project imageTag dockerRegistry env labels ports
            replicas force healthEndPoint nodeSelector) s).1.1, none)) ∧
    ((d.clientSet.update project
        (Deploy_deploySpec app project imageTag dockerRegistry env labels ports
          replicas force healthEndPoint nodeSelector) s).1.2 ≠ none →
      (d.clientSet.create project
        (Deploy_deploySpec app project imageTag dockerRegistry env labels ports
          replicas force healthEndPoint nodeSelector)
        (d.clientSet.update project
          (Deploy_deploySpec app project imageTag dockerRegistry env labels ports
            replicas force healthEndPoint nodeSelector) s).2).1.2 = none →
      (Deploy d s app project imageTag dockerRegistry env labels ports
          replicas force healthEndPoint nodeSelector).ret =
        ((d.clientSet.create project
          (Deploy_deploySpec app project imageTag dockerRegistry env labels ports
            replicas force healthEndPoint nodeSelector)
          (d.clientSet.update project
            (Deploy_deploySpec app project imageTag dockerRegistry env labels ports
              replicas force healthEndPoint nodeSelector) s).2).1.1, none)) := by
  constructor
  · intro h
    simp [Deploy, h]
  · intro h hc
    simp [Deploy, h, hc]

/-- Witness of C3: the accepting client acknowledges the update of
`hello-world`, and the client whose update fails acknowledges the create. -/
theorem Deploy_success_returns_acknowledged_witness :
    (Deploy (newDeployment acceptingClient) () "hello-world" "demo" "v1" "registry" [] [] [] 2
        false [] []).ret =
      (some (Deploy_deploySpec "hello-world" "demo" "v1" "registry" [] [] [] 2 false [] []),
        none) ∧
    (Deploy (newDeployment (failingUpdateClient conflictError)) () "hello-world" "demo" "v1"
        "registry" [] [] [] 2 false [] []).ret =
      (some (Deploy_deploySpec "hello-world" "demo" "v1" "registry" [] [] [] 2 false [] []),
        none) :=
  ⟨((Deploy_success_returns_acknowledged (newDeployment acceptingClient) () "hello-world" "demo"
      "v1" "registry" [] [] [] 2 false [] []).1 rfl).2,
   (Deploy_success_returns_acknowledged (newDeployment (failingUpdateClient conflictError)) ()
      "hello-world" "demo" "v1" "registry" [] [] [] 2 false [] []).2 (by decide) rfl⟩


/-! ## Theorems: idempotence against the model cluster -/

theorem Cluster.key_replace (ns : String) (d : Deployment) (e : String × Deployment) :
    Cluster.key (Cluster.replace ns d e) = Cluster.key e := by
  unfold Cluster.replace
  split
  · next h => simpa [Cluster.key] using (beq_iff_eq.mp h).symm
  · rfl

theorem Cluster.has_map_replace (ns : String) (d : Deployment) (cl : Cluster) (ns2 name : String) :
    Cluster.has (cl.map (Cluster.replace ns d)) ns2 name = Cluster.has cl ns2 name := by
  simp [Cluster.has, List.any_map, Function.comp_def, Cluster.key_replace]

theorem Cluster.replace_idem (ns : String) (d : Deployment) (e : String × Deployment) :
    Cluster.replace ns d (Cluster.replace ns d e) = Cluster.replace ns d e := by
  by_cases h : (Cluster.key e == (ns, d.ObjectMeta.Name)) = true
  · have h1 : Cluster.replace ns d e = (ns, d) := if_pos h
    rw [h1]
    exact if_pos (by simp [Cluster.key])
  · have h1 : Cluster.replace ns d e = e := if_neg h
    rw [h1]
    exact h1

theorem Cluster.map_replace_of_not_has (ns : String) (d : Deployment) (cl : Cluster)
    (h : Cluster.has cl ns d.ObjectMeta.Name = false) :
    cl.map (Cluster.replace ns d) = cl := by
  induction cl with
  | nil => rfl
  | cons e t ih =>
    simp only [Cluster.has, List.any_cons, Bool.or_eq_false_iff] at h
    rw [List.map_cons, ih (by simpa [Cluster.has] using h.2)]
    simp [Cluster.replace, h.1]

theorem Cluster.stored_of_not_has (cl : Cluster) (ns name : String)
    (h : Cluster.has cl ns name = false) : Cluster.stored cl ns name = [] := by
  induction cl with
  | nil => rfl
  | cons e t ih =>
    simp only [Cluster.has, List.any_cons, Bool.or_eq_false_iff] at h
    have := ih (by simpa [Cluster.has] using h.2)
    simp only [Cluster.stored] at this ⊢
    rw [List.filter_cons_of_neg (by simp [h.1])]
    exact this

theorem Cluster.stored_map_replace (ns : String) (d : Deployment) (cl : Cluster)
    (hwf : Cluster.WF cl) (h : Cluster.has cl ns d.ObjectMeta.Name = true) :
    Cluster.stored (cl.map (Cluster.replace ns d)) ns d.ObjectMeta.Name = [d] := by
  induction cl with
  | nil => simp [Cluster.has] at h
  | cons e t ih =>
    have hwf2 : Cluster.WF t := by
      simp only [Cluster.WF, List.map_cons, List.nodup_cons] at hwf
      exact hwf.2
    by_cases he : (Cluster.key e == (ns, d.ObjectMeta.Name)) = true
    · have hnot : Cluster.has t ns d.ObjectMeta.Name = false := by
        simp only [Cluster.WF, List.map_cons, List.nodup_cons, List.mem_map, not_exists,
          not_and] at hwf
        simp only [Cluster.has, List.any_eq_false, beq_iff_eq]
        intro x hx hxk
        exact hwf.1 x hx (hxk.trans (beq_iff_eq.mp he).symm)
      rw [List.map_cons, Cluster.map_replace_of_not_has ns d t hnot]
      have hs := Cluster.stored_of_not_has t ns d.ObjectMeta.Name hnot
      simp only [Cluster.stored] at hs ⊢
      rw [List.filter_cons_of_pos (by rw [Cluster.key_replace]; exact he)]
      have h1 : Cluster.replace ns d e = (ns, d) := if_pos he
      rw [List.map_cons, hs, h1]
    · have hh : Cluster.has t ns d.ObjectMeta.Name = true := by
        simp only [Cluster.has, List.any_cons, Bool.or_eq_true] at h
        rcases h with h | h
        · exact absurd h he
        · simpa [Cluster.has] using h
      have := ih hwf2 hh
      simp only [Cluster.stored, List.map_cons] at this ⊢
      rw [List.filter_cons_of_neg (by rw [Cluster.key_replace]; exact he)]
      exact this

theorem Deploy_model_of_has (cl : Cluster) (app project imageTag dockerRegistry : String)
    (env : List EnvVar) (labels : GoMap) (ports : List ContainerPort)
    (replicas : Int) (force : Bool) (healthEndPoint nodeSelector : GoMap)
    (h : Cluster.has cl project app = true) :
    Deploy (newDeployment modelClient) cl app project imageTag dockerRegistry env labels ports
        replicas force healthEndPoint nodeSelector =
      { ret := (some (Deploy_deploySpec app project imageTag dockerRegistry env labels ports
          replicas force healthEndPoint nodeSelector), none)
        calls := [Call.update project (Deploy_deploySpec app project imageTag dockerRegistry env
          labels ports replicas force healthEndPoint nodeSelector)]
        state := cl.map (Cluster.replace project (Deploy_deploySpec app project imageTag
          dockerRegistry env labels ports replicas force healthEndPoint nodeSelector)) } := by
  have h1 : Cluster.has cl project (Deploy_deploySpec app project imageTag dockerRegistry env
      labels ports replicas force healthEndPoint nodeSelector).ObjectMeta.Name = true := h
  simp [Deploy, modelClient, newDeployment, h1]

theorem Deploy_model_of_not_has (cl : Cluster) (app project imageTag dockerRegistry : String)
    (env : List EnvVar) (labels : GoMap) (ports : List ContainerPort)
    (replicas : Int) (force : Bool) (healthEndPoint nodeSelector : GoMap)
    (h : Cluster.has cl project app = false) :
    Deploy (newDeployment modelClient) cl app project imageTag dockerRegistry env labels ports
        replicas force healthEndPoint nodeSelector =
      { ret := (some (Deploy_deploySpec app project imageTag dockerRegistry env labels ports
          replicas force healthEndPoint nodeSelector), none)
        calls := [Call.update project (Deploy_deploySpec app project imageTag dockerRegistry env
            labels ports replicas force healthEndPoint nodeSelector),
          Call.create project (Deploy_deploySpec app project imageTag dockerRegistry env
            labels ports replicas force healthEndPoint nodeSelector)]
        state := cl ++ [(project, Deploy_deploySpec app project imageTag
          dockerRegistry env labels ports replicas force healthEndPoint nodeSelector)] } := by
  have h1 : Cluster.has cl project (Deploy_deploySpec app project imageTag dockerRegistry env
      labels ports replicas force healthEndPoint nodeSelector).ObjectMeta.Name = false := h
  simp [Deploy, modelClient, newDeployment, h1]

/-- C4: against the model cluster (at most one workload per (namespace, name),
update answers not-found on an absent key, create answers already-exists on a
present key), for every input of `Deploy` and every initial state: a second
`Deploy` with the same arguments leaves the state the first one left, that state
stores under (project, app) exactly one workload, the descriptor `Deploy`
built, and both calls return a nil error. -/
theorem Deploy_twice_same_state (cl : Cluster) (app project imageTag dockerRegistry : String)
    (env : List EnvVar) (labels : GoMap) (ports : List ContainerPort)
    (replicas : Int) (force : Bool) (healthEndPoint nodeSelector : GoMap)
    (hwf : Cluster.WF cl) :
    (Deploy (newDeployment modelClient)
        (Deploy (newDeployment modelClient) cl app project imageTag dockerRegistry env labels
          ports replicas force healthEndPoint nodeSelector).state
        app project imageTag dockerRegistry env labels ports replicas force healthEndPoint
        nodeSelector).state =
      (Deploy (newDeployment modelClient) cl app project imageTag dockerRegistry env labels
        ports replicas force healthEndPoint nodeSelector).state ∧
    Cluster.stored
        (Deploy (newDeployment modelClient) cl app project imageTag dockerRegistry env labels
          ports replicas force healthEndPoint nodeSelector).state project app =
      [Deploy_deploySpec app project imageTag dockerRegistry env labels ports replicas force
        healthEndPoint nodeSelector] ∧
    (Deploy (newDeployment modelClient) cl app project imageTag dockerRegistry env labels
        ports replicas force healthEndPoint nodeSelector).ret.2 = none ∧
    (Deploy (newDeployment modelClient)
        (Deploy (newDeployment modelClient) cl app project imageTag dockerRegistry env labels
          ports replicas force healthEndPoint nodeSelector).state
        app project imageTag dockerRegistry env labels ports replicas force healthEndPoint
        nodeSelector).ret.2 = none := by
  have hname : (Deploy_deploySpec app project imageTag dockerRegistry env labels ports replicas
      force healthEndPoint nodeSelector).ObjectMeta.Name = app := rfl
  by_cases h : Cluster.has cl project app = true
  · have h2 : Cluster.has (cl.map (Cluster.replace project (Deploy_deploySpec app project
        imageTag dockerRegistry env labels ports replicas force healthEndPoint nodeSelector)))
        project app = true := by
      rw [Cluster.has_map_replace]; exact h
    rw [Deploy_model_of_has cl app project imageTag dockerRegistry env labels ports replicas
      force healthEndPoint nodeSelector h]
    simp only
    rw [Deploy_model_of_has _ app project imageTag dockerRegistry env labels ports replicas
      force healthEndPoint nodeSelector h2]
    refine ⟨?_, ?_, by simp⟩
    · simp only [List.map_map]
      apply List.map_congr_left
      intro e _
      exact Cluster.replace_idem _ _ e
    · have := Cluster.stored_map_replace project (Deploy_deploySpec app project
        imageTag dockerRegistry env labels ports replicas force healthEndPoint nodeSelector)
        cl hwf (by rw [hname]; exact h)
      rw [hname] at this
      exact this
  · have h0 : Cluster.has cl project app = false := by simpa using h
    have h2 : Cluster.has (cl ++ [(project, Deploy_deploySpec app project
        imageTag dockerRegistry env labels ports replicas force healthEndPoint nodeSelector)])
        project app = true := by
      simp [Cluster.has, Cluster.key, hname]
    rw [Deploy_model_of_not_has cl app project imageTag dockerRegistry env labels ports replicas
      force healthEndPoint nodeSelector h0]
    simp only
    rw [Deploy_model_of_has _ app project imageTag dockerRegistry env labels ports replicas
      force healthEndPoint nodeSelector h2]
    refine ⟨?_, ?_, by simp⟩
    · simp only [List.map_append, List.map_cons, List.map_nil]
      rw [Cluster.map_replace_of_not_has _ _ cl (by rw [hname]; exact h0)]
      congr 2
      exact if_pos (by simp [Cluster.key])
    · have hs := Cluster.stored_of_not_has cl project app h0
      simp only [Cluster.stored, List.filter_append, List.map_append] at hs ⊢
      rw [hs]
      simp [Cluster.key, hname]

/-- Witness of C4: on a cluster that already stores one other workload,
deploying `hello-world` twice leaves the state of deploying it once. -/
theorem Deploy_twice_same_state_witness :
    (Deploy (newDeployment modelClient)
        (Deploy (newDeployment modelClient)
          [("demo", Deploy_deploySpec "other" "demo" "v0" "registry" [] [] [] 1 false [] [])]
          "hello-world" "demo" "v1" "registry" [] [] [] 2 false [] []).state
        "hello-world" "demo" "v1" "registry" [] [] [] 2 false [] []).state =
      (Deploy (newDeployment modelClient)
        [("demo", Deploy_deploySpec "other" "demo" "v0" "registry" [] [] [] 1 false [] [])]
        "hello-world" "demo" "v1" "registry" [] [] [] 2 false [] []).state :=
  (Deploy_twice_same_state
    [("demo", Deploy_deploySpec "other" "demo" "v0" "registry" [] [] [] 1 false [] [])]
    "hello-world" "demo" "v1" "registry" [] [] [] 2 false [] []
    (by simp [Cluster.WF, Cluster.key])).1

/-! ## Theorems: decimal rendering -/

theorem digitValue_digitChar (n : Nat) (h : n < 10) : digitValue (Nat.digitChar n) = n := by
  interval_cases n <;> rfl

theorem foldl_toDigitsCore (fuel : Nat) : ∀ (n : Nat) (acc : List Char), n < fuel →
    (Nat.toDigitsCore 10 fuel n acc).foldl (fun a c => 10 * a + digitValue c) 0 =
      acc.foldl (fun a c => 10 * a + digitValue c) n := by
  induction fuel with
  | zero => intro n acc h; omega
  | succ f ih =>
    intro n acc h
    simp only [Nat.toDigitsCore]
    split
    · next h0 =>
      have hn : n % 10 = n := by omega
      have hlt : n < 10 := by omega
      rw [hn]
      simp only [List.foldl_cons, digitValue_digitChar n hlt, Nat.mul_zero, Nat.zero_add]
    · next h0 =>
      rw [ih (n / 10) _ (by omega)]
      simp only [List.foldl_cons, digitValue_digitChar (n % 10) (Nat.mod_lt _ (by decide))]
      congr 1
      omega

theorem decimalValue_toDigits (n : Nat) : decimalValue (Nat.toDigits 10 n) = n := by
  unfold decimalValue Nat.toDigits
  rw [foldl_toDigitsCore (n + 1) n [] (by omega)]
  rfl

theorem Nat_repr_injective : Function.Injective Nat.repr := by
  intro a b h
  have h1 : Nat.toDigits 10 a = Nat.toDigits 10 b := by
    have := congrArg String.data h
    simpa [Nat.repr, List.asString] using this
  rw [← decimalValue_toDigits a, ← decimalValue_toDigits b, h1]

theorem toString_natCast_injective (a b : Nat)
    (h : toString (a : Int) = toString (b : Int)) : a = b := by
  have h1 : Nat.repr a = Nat.repr b := h
  exact Nat_repr_injective h1

theorem String_append_left_cancel (p a b : String) (h : p ++ a = p ++ b) : a = b := by
  have := congrArg String.data h
  simp only [String.data_append, List.append_cancel_left_eq] at this
  exact String.ext this

/-! ## Theorems: the volume loop of `DeployNode` -/

theorem foldl_volumeStep (l : List (String × String)) : ∀ st : VolumeLoop,
    l.foldl DeployNode_volumeStep st =
      { i := st.i + l.length
        Volumes := st.Volumes ++ (namedEntries st.i l).map volumeOf
        VolumeMounts := st.VolumeMounts ++ (namedEntries st.i l).map mountOf } := by
  induction l with
  | nil => intro st; simp [namedEntries]
  | cons kv t ih =>
    intro st
    rw [List.foldl_cons, ih]
    simp only [DeployNode_volumeStep, namedEntries, List.map_cons, List.append_assoc,
      List.singleton_append, List.length_cons, VolumeLoop.mk.injEq, volumeOf, mountOf, and_true]
    push_cast
    ring

theorem DeployNode_volumes_eq (l : List (String × String)) :
    DeployNode_volumes l =
      { i := l.length
        Volumes := (namedEntries 0 l).map volumeOf
        VolumeMounts := (namedEntries 0 l).map mountOf } := by
  unfold DeployNode_volumes
  rw [foldl_volumeStep]
  simp

theorem namedEntries_entries (l : List (String × String)) : ∀ i : Int,
    (namedEntries i l).map Prod.snd = l := by
  induction l with
  | nil => intro i; rfl
  | cons kv t ih => intro i; simp [namedEntries, ih]

theorem namedEntries_names (l : List (String × String)) : ∀ i : Int,
    (namedEntries i l).map Prod.fst =
      (List.range l.length).map fun (j : Nat) => "volume" ++ sprintf_d (i + (j : Int) + 1) := by
  induction l with
  | nil => intro i; rfl
  | cons kv t ih =>
    intro i
    rw [namedEntries, List.map_cons, ih, List.length_cons, List.range_succ_eq_map,
      List.map_cons, List.map_map]
    congr 1
    · simp
    · apply List.map_congr_left
      intro j _
      simp only [Function.comp_apply]
      congr 2
      push_cast
      ring

theorem volumeName_injective :
    Function.Injective fun j : Nat => "volume" ++ sprintf_d ((0 : Int) + (j : Int) + 1) := by
  intro a b h
  have h1 := String_append_left_cancel _ _ _ h
  have ha : ((0 : Int) + (a : Int) + 1) = ((a + 1 : Nat) : Int) := by push_cast; ring
  have hb : ((0 : Int) + (b : Int) + 1) = ((b + 1 : Nat) : Int) := by push_cast; ring
  rw [ha, hb] at h1
  have := toString_natCast_injective _ _ h1
  omega

theorem namedEntries_names_nodup (l : List (String × String)) :
    ((namedEntries 0 l).map Prod.fst).Nodup := by
  rw [namedEntries_names]
  exact List.Nodup.map volumeName_injective (List.nodup_range _)

theorem filter_mount_of_mem (T : List (String × (String × String)))
    (hnd : (T.map Prod.fst).Nodup) (t : String × (String × String)) (ht : t ∈ T) :
    (T.map mountOf).filter (fun m => m.Name == t.1) = [mountOf t] := by
  induction T with
  | nil => cases ht
  | cons a T ih =>
    simp only [List.map_cons, List.nodup_cons, List.mem_map, not_exists, not_and] at hnd
    rcases List.mem_cons.mp ht with rfl | hmem
    · rw [List.map_cons, List.filter_cons_of_pos (by simp [mountOf])]
      congr 1
      rw [List.filter_eq_nil_iff]
      intro m hm
      rcases List.mem_map.mp hm with ⟨x, hx, rfl⟩
      simp only [mountOf, beq_iff_eq]
      exact hnd.1 x hx
    · have hne : a.1 ≠ t.1 := fun h => hnd.1 t hmem h.symm
      rw [List.map_cons, List.filter_cons_of_neg (by simpa [mountOf] using hne)]
      exact ih hnd.2 hmem

theorem joinByName_sub (T : List (String × (String × String)))
    (hnd : (T.map Prod.fst).Nodup) : ∀ S : List (String × (String × String)),
    (∀ t ∈ S, t ∈ T) → joinByName (S.map volumeOf) (T.map mountOf) = S.map Prod.snd := by
  intro S
  induction S with
  | nil => intro _; rfl
  | cons t S ih =>
    intro h
    have h1 := ih (fun x hx => h x (List.mem_cons_of_mem _ hx))
    have h2 := filter_mount_of_mem T hnd t (h t (List.mem_cons_self _ _))
    unfold joinByName at h1 ⊢
    rw [List.map_cons, List.flatMap_cons, h1]
    have h3 : (volumeOf t).Name = t.1 := rfl
    rw [h3, h2]
    simp [mountOf, volumeOf, Volume.hostPath]

theorem joinByName_named (T : List (String × (String × String)))
    (hnd : (T.map Prod.fst).Nodup) :
    joinByName (T.map volumeOf) (T.map mountOf) = T.map Prod.snd :=
  joinByName_sub T hnd T (fun _ h => h)

/-- C5: in the descriptor `DeployNode` builds, the pod template has a single
container, and the list of its volume-mount names equals the list of the pod
template's volume names position by position; hence every mount names some
volume of the pod template and every volume is mounted by the container. -/
theorem DeployNode_mounts_match_volumes (deployData : DeployData)
    (envsRange volumesRange : List (String × String)) :
    ∃ c : Container,
      (DeployNode_deploySpec deployData envsRange volumesRange).Spec.Template.Spec.Containers
        = [c] ∧
      c.VolumeMounts.map VolumeMount.Name =
        (DeployNode_deploySpec deployData envsRange volumesRange).Spec.Template.Spec.Volumes.map
          Volume.Name ∧
      (∀ m ∈ c.VolumeMounts, ∃ v ∈ (DeployNode_deploySpec deployData envsRange
          volumesRange).Spec.Template.Spec.Volumes, v.Name = m.Name) ∧
      (∀ v ∈ (DeployNode_deploySpec deployData envsRange volumesRange).Spec.Template.Spec.Volumes,
        ∃ m ∈ c.VolumeMounts, m.Name = v.Name) := by
  have hnames : ((namedEntries 0 volumesRange).map mountOf).map VolumeMount.Name =
      ((namedEntries 0 volumesRange).map volumeOf).map Volume.Name := by
    simp [List.map_map, Function.comp_def, mountOf, volumeOf]
  refine ⟨_, rfl, ?_, ?_, ?_⟩
  · simp only [DeployNode_deploySpec, DeployNode_volumes_eq]
    exact hnames
  · simp only [DeployNode_deploySpec, DeployNode_volumes_eq]
    intro m hm
    rcases List.mem_map.mp hm with ⟨t, ht, rfl⟩
    exact ⟨volumeOf t, List.mem_map_of_mem _ ht, rfl⟩
  · simp only [DeployNode_deploySpec, DeployNode_volumes_eq]
    intro v hv
    rcases List.mem_map.mp hv with ⟨t, ht, rfl⟩
    exact ⟨mountOf t, List.mem_map_of_mem _ ht, rfl⟩

/-- Witness of C5: with the two host paths `/data` and `/logs` the mount names
and the volume names are both `volume1`, `volume2`. -/
theorem DeployNode_mounts_match_volumes_witness :
    ∃ c : Container,
      (DeployNode_deploySpec
          { Name := "hello-world", NameSpace := "demo", Replicas := 2, Labels := [],
            Image := "registry/demo/hello-world:v1", Ports := [8080], Envs := [("ENV", "prod")],
            HostPathVolume := [("/data", "/var/data"), ("/logs", "/var/log")] }
          [("ENV", "prod")]
          [("/data", "/var/data"), ("/logs", "/var/log")]).Spec.Template.Spec.Containers = [c] ∧
      c.VolumeMounts.map VolumeMount.Name = ["volume1", "volume2"] := by
  obtain ⟨c, hc, hn, _, _⟩ := DeployNode_mounts_match_volumes
    { Name := "hello-world", NameSpace := "demo", Replicas := 2, Labels := [],
      Image := "registry/demo/hello-world:v1", Ports := [8080], Envs := [("ENV", "prod")],
      HostPathVolume := [("/data", "/var/data"), ("/logs", "/var/log")] }
    [("ENV", "prod")] [("/data", "/var/data"), ("/logs", "/var/log")]
  refine ⟨c, hc, ?_⟩
  rw [hn]
  decide

/-- C6: when the `HostPathVolume` mapping has `N` entries, the descriptor of
`DeployNode` contains exactly `N` volumes, their names are pairwise distinct,
and the `i`-th volume (`1 ≤ i ≤ N`) is named `volume` followed by the decimal
rendering of `i`, in that order. -/
theorem DeployNode_volume_names (deployData : DeployData)
    (envsRange volumesRange : List (String × String)) (N : Nat)
    (hrange : GoMap.IsRange deployData.HostPathVolume volumesRange)
    (hN : deployData.HostPathVolume.length = N) :
    (DeployNode_deploySpec deployData envsRange volumesRange).Spec.Template.Spec.Volumes.length
      = N ∧
    ((DeployNode_deploySpec deployData envsRange volumesRange).Spec.Template.Spec.Volumes.map
      Volume.Name).Nodup ∧
    (DeployNode_deploySpec deployData envsRange volumesRange).Spec.Template.Spec.Volumes.map
        Volume.Name =
      (List.range N).map (fun (j : Nat) => "volume" ++ sprintf_d ((j : Int) + 1)) ∧
    ∀ i : Nat, 1 ≤ i → i ≤ N →
      ((DeployNode_deploySpec deployData envsRange volumesRange).Spec.Template.Spec.Volumes.get?
        (i - 1)).map Volume.Name = some ("volume" ++ sprintf_d (i : Int)) := by
  have hlen : volumesRange.length = N := by rw [← hN]; exact List.Perm.length_eq hrange
  have hvol : (DeployNode_deploySpec deployData envsRange volumesRange).Spec.Template.Spec.Volumes
      = (namedEntries 0 volumesRange).map volumeOf := by
    simp only [DeployNode_deploySpec, DeployNode_volumes_eq]
  have hnm : ((namedEntries 0 volumesRange).map volumeOf).map Volume.Name =
      (namedEntries 0 volumesRange).map Prod.fst := by
    simp [List.map_map, Function.comp_def, volumeOf]
  have hnames : ((namedEntries 0 volumesRange).map volumeOf).map Volume.Name =
      (List.range N).map (fun (j : Nat) => "volume" ++ sprintf_d ((j : Int) + 1)) := by
    rw [hnm, namedEntries_names, hlen]
    simp
  rw [hvol]
  refine ⟨?_, ?_, hnames, ?_⟩
  · have := congrArg List.length hnames
    simpa using this
  · rw [hnm]; exact namedEntries_names_nodup _
  · intro i h1 h2
    rw [List.get?_eq_getElem?, ← List.getElem?_map, hnames, List.getElem?_map,
      List.getElem?_range (by omega)]
    have hi : ((i - 1 : Nat) : Int) + 1 = (i : Int) := by omega
    simp only [Option.map_some', hi]

/-- Witness of C6: two host-path entries, visited in the reverse of the order
they are listed in, give the volume names `volume1`, `volume2`. -/
theorem DeployNode_volume_names_witness :
    (DeployNode_deploySpec
        { Name := "hello-world", NameSpace := "demo", Replicas := 2, Labels := [],
          Image := "registry/demo/hello-world:v1", Ports := [8080], Envs := [("ENV", "prod")],
          HostPathVolume := [("/data", "/var/data"), ("/logs", "/var/log")] }
        [("ENV", "prod")]
        [("/logs", "/var/log"), ("/data", "/var/data")]).Spec.Template.Spec.Volumes.map
        Volume.Name =
      (List.range 2).map (fun (j : Nat) => "volume" ++ sprintf_d ((j : Int) + 1)) :=
  (DeployNode_volume_names
    { Name := "hello-world", NameSpace := "demo", Replicas := 2, Labels := [],
      Image := "registry/demo/hello-world:v1", Ports := [8080], Envs := [("ENV", "prod")],
      HostPathVolume := [("/data", "/var/data"), ("/logs", "/var/log")] }
    [("ENV", "prod")] [("/logs", "/var/log"), ("/data", "/var/data")] 2
    (List.Perm.swap _ _ _) rfl).2.2.1

/-- C7: for a `HostPathVolume` mapping with distinct keys, visited in any
order, joining the volumes and the volume mounts of the descriptor of
`DeployNode` by volume name gives back exactly the entries of the mapping (as
many pairs, the same pairs); for every entry `k ↦ v` there is exactly one name
`n` such that a volume named `n` is a host-path volume with path `k` and a mount
named `n` has mount path `v`; every volume and every mount comes from an entry;
and two visiting orders give the same bindings. -/
theorem DeployNode_join_recovers_mapping (deployData : DeployData)
    (envsRange volumesRange envsRange2 volumesRange2 : List (String × String))
    (hwf : GoMap.WF deployData.HostPathVolume)
    (hrange : GoMap.IsRange deployData.HostPathVolume volumesRange)
    (hrange2 : GoMap.IsRange deployData.HostPathVolume volumesRange2) :
    (joinByName
        (DeployNode_deploySpec deployData envsRange volumesRange).Spec.Template.Spec.Volumes
        ((DeployNode_deploySpec deployData envsRange volumesRange).Spec.Template.Spec.Containers.flatMap
          Container.VolumeMounts)).Perm deployData.HostPathVolume ∧
    (∀ k v : String, (k, v) ∈ deployData.HostPathVolume →
      ∃! n : String,
        (∃ vol ∈ (DeployNode_deploySpec deployData envsRange
            volumesRange).Spec.Template.Spec.Volumes,
          vol.Name = n ∧ vol.VolumeSource.HostPath = some { Path := k }) ∧
        (∃ m ∈ (DeployNode_deploySpec deployData envsRange
            volumesRange).Spec.Template.Spec.Containers.flatMap Container.VolumeMounts,
          m.Name = n ∧ m.MountPath = v)) ∧
    (∀ vol ∈ (DeployNode_deploySpec deployData envsRange volumesRange).Spec.Template.Spec.Volumes,
      ∃ k v : String, (k, v) ∈ deployData.HostPathVolume ∧
        vol.VolumeSource.HostPath = some { Path := k } ∧
        ∃ m ∈ (DeployNode_deploySpec deployData envsRange
            volumesRange).Spec.Template.Spec.Containers.flatMap Container.VolumeMounts,
          m.Name = vol.Name ∧ m.MountPath = v) ∧
    (∀ m ∈ (DeployNode_deploySpec deployData envsRange
        volumesRange).Spec.Template.Spec.Containers.flatMap Container.VolumeMounts,
      ∃ k v : String, (k, v) ∈ deployData.HostPathVolume ∧ m.MountPath = v ∧
        ∃ vol ∈ (DeployNode_deploySpec deployData envsRange
            volumesRange).Spec.Template.Spec.Volumes,
          vol.Name = m.Name ∧ vol.VolumeSource.HostPath = some { Path := k }) ∧
    (joinByName
        (DeployNode_deploySpec deployData envsRange volumesRange).Spec.Template.Spec.Volumes
        ((DeployNode_deploySpec deployData envsRange volumesRange).Spec.Template.Spec.Containers.flatMap
          Container.VolumeMounts)).Perm
      (joinByName
        (DeployNode_deploySpec deployData envsRange2 volumesRange2).Spec.Template.Spec.Volumes
        ((DeployNode_deploySpec deployData envsRange2
          volumesRange2).Spec.Template.Spec.Containers.flatMap Container.VolumeMounts)) := by
  have hvol : ∀ er vr, (DeployNode_deploySpec deployData er vr).Spec.Template.Spec.Volumes
      = (namedEntries 0 vr).map volumeOf := by
    intro er vr
    simp only [DeployNode_deploySpec, DeployNode_volumes_eq]
  have hmnt : ∀ er vr, (DeployNode_deploySpec deployData er vr).Spec.Template.Spec.Containers.flatMap
      Container.VolumeMounts = (namedEntries 0 vr).map mountOf := by
    intro er vr
    simp [DeployNode_deploySpec, DeployNode_volumes_eq]
  have hjoin : ∀ vr, joinByName ((namedEntries 0 vr).map volumeOf)
      ((namedEntries 0 vr).map mountOf) = vr := by
    intro vr
    rw [joinByName_named _ (namedEntries_names_nodup vr), namedEntries_entries]
  have hkeys : ((namedEntries 0 volumesRange).map fun t => t.2.1).Nodup := by
    have h1 : ((namedEntries 0 volumesRange).map fun t => t.2.1) =
        volumesRange.map Prod.fst := by
      rw [← namedEntries_entries volumesRange 0, List.map_map, namedEntries_entries]
      rfl
    rw [h1]
    exact (List.Perm.nodup_iff (List.Perm.map Prod.fst hrange)).mpr hwf
  have hmem : ∀ t ∈ namedEntries 0 volumesRange, (t.2.1, t.2.2) ∈ deployData.HostPathVolume := by
    intro t ht
    have h1 : t.2 ∈ (namedEntries 0 volumesRange).map Prod.snd := List.mem_map_of_mem _ ht
    rw [namedEntries_entries] at h1
    exact (List.Perm.mem_iff hrange).mp h1
  rw [hvol, hmnt, hvol, hmnt, hjoin, hjoin]
  refine ⟨hrange, ?_, ?_, ?_, List.Perm.trans hrange (List.Perm.symm hrange2)⟩
  · intro k v hkv
    have h1 : (k, v) ∈ (namedEntries 0 volumesRange).map Prod.snd := by
      rw [namedEntries_entries]
      exact (List.Perm.mem_iff hrange).mpr hkv
    rcases List.mem_map.mp h1 with ⟨t, ht, htkv⟩
    have hk : t.2.1 = k := congrArg Prod.fst htkv
    have hv : t.2.2 = v := congrArg Prod.snd htkv
    refine ⟨t.1, ⟨⟨volumeOf t, List.mem_map_of_mem _ ht, rfl, ?_⟩,
      ⟨mountOf t, List.mem_map_of_mem _ ht, rfl, hv⟩⟩, ?_⟩
    · simp [volumeOf, hk]
    · rintro n ⟨⟨vol, hvolm, hn, hp⟩, _⟩
      rcases List.mem_map.mp hvolm with ⟨t2, ht2, rfl⟩
      have hk2 : t2.2.1 = k := by simpa [volumeOf] using hp
      have hEq : t2 = t :=
        List.inj_on_of_nodup_map hkeys ht2 ht (hk2.trans hk.symm)
      rw [← hn, hEq]
      rfl
  · intro vol hvolm
    rcases List.mem_map.mp hvolm with ⟨t, ht, rfl⟩
    exact ⟨t.2.1, t.2.2, hmem t ht, rfl, mountOf t, List.mem_map_of_mem _ ht, rfl, rfl⟩
  · intro m hm
    rcases List.mem_map.mp hm with ⟨t, ht, rfl⟩
    exact ⟨t.2.1, t.2.2, hmem t ht, rfl, volumeOf t, List.mem_map_of_mem _ ht, rfl, rfl⟩

/-- Witness of C7: two host-path entries visited in the reverse of the listed
order; the join by name is a rearrangement of the two entries. -/
theorem DeployNode_join_recovers_mapping_witness :
    (joinByName
        (DeployNode_deploySpec
          { Name := "hello-world", NameSpace := "demo", Replicas := 2, Labels := [],
            Image := "registry/demo/hello-world:v1", Ports := [8080], Envs := [("ENV", "prod")],
            HostPathVolume := [("/data", "/var/data"), ("/logs", "/var/log")] }
          [("ENV", "prod")]
          [("/logs", "/var/log"), ("/data", "/var/data")]).Spec.Template.Spec.Volumes
        ((DeployNode_deploySpec
          { Name := "hello-world", NameSpace := "demo", Replicas := 2, Labels := [],
            Image := "registry/demo/hello-world:v1", Ports := [8080], Envs := [("ENV", "prod")],
            HostPathVolume := [("/data", "/var/data"), ("/logs", "/var/log")] }
          [("ENV", "prod")]
          [("/logs", "/var/log"), ("/data", "/var/data")]).Spec.Template.Spec.Containers.flatMap
          Container.VolumeMounts)).Perm
      [("/data", "/var/data"), ("/logs", "/var/log")] :=
  (DeployNode_join_recovers_mapping
    { Name := "hello-world", NameSpace := "demo", Replicas := 2, Labels := [],
      Image := "registry/demo/hello-world:v1", Ports := [8080], Envs := [("ENV", "prod")],
      HostPathVolume := [("/data", "/var/data"), ("/logs", "/var/log")] }
    [("ENV", "prod")] [("/logs", "/var/log"), ("/data", "/var/data")]
    [("ENV", "prod")] [("/data", "/var/data"), ("/logs", "/var/log")]
    (by simp [GoMap.WF]) (List.Perm.swap _ _ _) (List.Perm.refl _)).1

/-! ## Theorems: the fixed parts of the descriptors -/

theorem Deploy_submitted {σ : Type} (d : DeploymentClient σ) (s : σ)
    (app project imageTag dockerRegistry : String)
    (env : List EnvVar) (labels : GoMap) (ports : List ContainerPort)
    (replicas : Int) (force : Bool) (healthEndPoint nodeSelector : GoMap) :
    ∀ x ∈ (Deploy d s app project imageTag dockerRegistry env labels ports replicas force
        healthEndPoint nodeSelector).submitted,
      x = Deploy_deploySpec app project imageTag dockerRegistry env labels ports replicas force
        healthEndPoint nodeSelector := by
  intro x hx
  unfold Deploy Run.submitted at hx
  dsimp only at hx
  split_ifs at hx <;> simpa [Call.descriptor?] using hx

theorem ExtensionsV1beta1Deploy_submitted {σ Loose : Type} (L : Lib Loose)
    (d : DeploymentClient σ) (s : σ) (app project imageTag dockerRegistry : String)
    (env : Loose) (labels : GoMap) (ports : Loose)
    (replicas : Int) (force : Bool) (healthEndPoint nodeSelector : String)
    (r : Run σ (String × Option GoError))
    (hr : ExtensionsV1beta1Deploy L d s app project imageTag dockerRegistry env labels ports
      replicas force healthEndPoint nodeSelector = Except.ok r) :
    ∀ x ∈ r.submitted, ∃ selector : GoMap,
      x = ExtensionsV1beta1Deploy_deploySpec app project imageTag dockerRegistry
        (L.copyEnv [] env).1 labels (L.copyPorts [] ports).1 replicas force healthEndPoint
        selector := by
  intro x hx
  unfold ExtensionsV1beta1Deploy at hr
  cases hsel : ExtensionsV1beta1Deploy_selector nodeSelector with
  | error pn => rw [hsel] at hr; cases hr
  | ok selector =>
    rw [hsel] at hr
    refine ⟨selector, ?_⟩
    simp only at hr
    split_ifs at hr <;>
      · cases hr
        simpa [Run.submitted, Call.descriptor?] using hx

theorem DeployNode_submitted {σ Loose : Type} (L : Lib Loose) (d : DeploymentClient σ) (s : σ)
    (deployData : DeployData) (envsRange volumesRange : List (String × String)) :
    (DeployNode L d s deployData envsRange volumesRange).submitted =
      [DeployNode_deploySpec deployData envsRange volumesRange] := by
  unfold DeployNode Run.submitted
  dsimp only
  split_ifs <;> rfl

/-- C8: for every input, the descriptor each of `Deploy`,
`ExtensionsV1beta1Deploy` and `DeployNode` builds, and every descriptor the
operation submits to the client, has update strategy type rolling-update with
integer max-unavailable 0 and integer max-surge 1 and revision-history limit 10;
for `DeployNode` this holds for every order in which the `Envs` and
`HostPathVolume` mappings are visited. -/
theorem submitted_policy_fixed {σ Loose : Type} (L : Lib Loose) (d : DeploymentClient σ) (s : σ)
    (app project imageTag dockerRegistry : String)
    (env : List EnvVar) (labels : GoMap) (ports : List ContainerPort)
    (replicas : Int) (force : Bool) (healthEndPoint nodeSelector : GoMap)
    (envLoose portsLoose : Loose) (healthEndPointText nodeSelectorText : String)
    (e : List EnvVar) (p : List ContainerPort) (selector : GoMap)
    (deployData : DeployData) (envsRange volumesRange : List (String × String)) :
    FixedPolicy (Deploy_deploySpec app project imageTag dockerRegistry env labels ports replicas
      force healthEndPoint nodeSelector) ∧
    FixedPolicy (ExtensionsV1beta1Deploy_deploySpec app project imageTag dockerRegistry e labels p
      replicas force healthEndPointText selector) ∧
    FixedPolicy (DeployNode_deploySpec deployData envsRange volumesRange) ∧
    (∀ x ∈ (Deploy d s app project imageTag dockerRegistry env labels ports replicas force
        healthEndPoint nodeSelector).submitted, FixedPolicy x) ∧
    (∀ r, ExtensionsV1beta1Deploy L d s app project imageTag dockerRegistry envLoose labels
        portsLoose replicas force healthEndPointText nodeSelectorText = Except.ok r →
      ∀ x ∈ r.submitted, FixedPolicy x) ∧
    (∀ x ∈ (DeployNode L d s deployData envsRange volumesRange).submitted, FixedPolicy x) := by
  refine ⟨⟨rfl, rfl, rfl⟩, ⟨rfl, rfl, rfl⟩, ⟨rfl, rfl, rfl⟩, ?_, ?_, ?_⟩
  · intro x hx
    rw [Deploy_submitted d s _ _ _ _ _ _ _ _ _ _ _ x hx]
    exact ⟨rfl, rfl, rfl⟩
  · intro r hr x hx
    obtain ⟨sel, rfl⟩ := ExtensionsV1beta1Deploy_submitted L d s _ _ _ _ _ _ _ _ _ _ _ r hr x hx
    exact ⟨rfl, rfl, rfl⟩
  · intro x hx
    rw [DeployNode_submitted] at hx
    rw [List.mem_singleton.mp hx]
    exact ⟨rfl, rfl, rfl⟩

/-- Witness of C8: the descriptor `Deploy` submits for `hello-world` to the
accepting client has the fixed policy. -/
theorem submitted_policy_fixed_witness :
    FixedPolicy (Deploy_deploySpec "hello-world" "demo" "v1" "registry" [] [] [] 2 false [] []) :=
  (submitted_policy_fixed sampleLib (newDeployment acceptingClient) ()
    "hello-world" "demo" "v1" "registry" [] [] [] 2 false [] [] () () "" "" [] [] []
    { Name := "hello-world", NameSpace := "demo", Replicas := 2, Labels := [],
      Image := "registry/demo/hello-world:v1", Ports := [8080], Envs := [("ENV", "prod")],
      HostPathVolume := [] } [("ENV", "prod")] []).2.2.2.1
    (Deploy_deploySpec "hello-world" "demo" "v1" "registry" [] [] [] 2 false [] [])
    (by decide)

/-- C9 (evaluation at the failing input): for `hello-world` in `demo` with
image tag `v1` and an empty caller-supplied label mapping, the descriptor of
`ExtensionsV1beta1Deploy` selects pods by `app` and `version` while neither the
pod template's labels nor the workload's own labels hold `app` or `version`; the
labels of the descriptor of `DeployNode` lack them too; the descriptor of
`Deploy` for the same input holds both keys in both label mappings. -/
theorem labels_lack_app_version :
    ¬ CarriesAppVersion (ExtensionsV1beta1Deploy_deploySpec "hello-world" "demo" "v1" "registry"
        [] [] [] 2 false "" []).Spec.Template.ObjectMeta.Labels "hello-world" "v1" ∧
    ¬ CarriesAppVersion (ExtensionsV1beta1Deploy_deploySpec "hello-world" "demo" "v1" "registry"
        [] [] [] 2 false "" []).ObjectMeta.Labels "hello-world" "v1" ∧
    ¬ CarriesAppVersion (DeployNode_deploySpec
        { Name := "hello-world", NameSpace := "demo", Replicas := 2, Labels := [],
          Image := "registry/demo/hello-world:v1", Ports := [8080], Envs := [("ENV", "prod")],
          HostPathVolume := [] } [("ENV", "prod")] []).Spec.Template.ObjectMeta.Labels
        "hello-world" "v1" ∧
    ¬ CarriesAppVersion (DeployNode_deploySpec
        { Name := "hello-world", NameSpace := "demo", Replicas := 2, Labels := [],
          Image := "registry/demo/hello-world:v1", Ports := [8080], Envs := [("ENV", "prod")],
          HostPathVolume := [] } [("ENV", "prod")] []).ObjectMeta.Labels "hello-world" "v1" ∧
    (ExtensionsV1beta1Deploy_deploySpec "hello-world" "demo" "v1" "registry"
        [] [] [] 2 false "" []).Spec.Template.ObjectMeta.Labels = [] ∧
    (ExtensionsV1beta1Deploy_deploySpec "hello-world" "demo" "v1" "registry"
        [] [] [] 2 false "" []).Spec.Selector =
      some { MatchLabels := [("app", "hello-world"), ("version", "v1")] } ∧
    CarriesAppVersion (Deploy_deploySpec "hello-world" "demo" "v1" "registry" [] [] [] 2 false []
        []).ObjectMeta.Labels "hello-world" "v1" ∧
    CarriesAppVersion (Deploy_deploySpec "hello-world" "demo" "v1" "registry" [] [] [] 2 false []
        []).Spec.Template.ObjectMeta.Labels "hello-world" "v1" := by
  refine ⟨?_, ?_, ?_, ?_, rfl, rfl, ⟨by decide, by decide⟩, ⟨by decide, by decide⟩⟩ <;>
    intro h <;> exact absurd h.1 (by decide)

/-- What each builder writes as labels, for every input: `Deploy` writes `app`
and `version` into the workload's own labels and into the pod template's labels,
whatever label mapping the caller supplied; `ExtensionsV1beta1Deploy` and
`DeployNode` leave the workload's own labels empty and copy the caller's mapping
into the pod template's labels, and `ExtensionsV1beta1Deploy` writes `app` and
`version` into the match-labels of the selector only. -/
theorem labels_of_builders (app project imageTag dockerRegistry : String)
    (env : List EnvVar) (labels : GoMap) (ports : List ContainerPort)
    (replicas : Int) (force : Bool) (healthEndPoint nodeSelector : GoMap)
    (healthEndPointText : String) (selector : GoMap)
    (deployData : DeployData) (envsRange volumesRange : List (String × String)) :
    CarriesAppVersion (Deploy_deploySpec app project imageTag dockerRegistry env labels ports
      replicas force healthEndPoint nodeSelector).ObjectMeta.Labels app imageTag ∧
    CarriesAppVersion (Deploy_deploySpec app project imageTag dockerRegistry env labels ports
      replicas force healthEndPoint nodeSelector).Spec.Template.ObjectMeta.Labels app imageTag ∧
    (ExtensionsV1beta1Deploy_deploySpec app project imageTag dockerRegistry env labels ports
      replicas force healthEndPointText selector).ObjectMeta.Labels = [] ∧
    (ExtensionsV1beta1Deploy_deploySpec app project imageTag dockerRegistry env labels ports
      replicas force healthEndPointText selector).Spec.Template.ObjectMeta.Labels = labels ∧
    (∃ sel : LabelSelector,
      (ExtensionsV1beta1Deploy_deploySpec app project imageTag dockerRegistry env labels ports
        replicas force healthEndPointText selector).Spec.Selector = some sel ∧
      CarriesAppVersion sel.MatchLabels app imageTag) ∧
    (DeployNode_deploySpec deployData envsRange volumesRange).ObjectMeta.Labels = [] ∧
    (DeployNode_deploySpec deployData envsRange volumesRange).Spec.Template.ObjectMeta.Labels =
      deployData.Labels := by
  have hc : CarriesAppVersion [("app", app), ("version", imageTag)] app imageTag := by
    constructor
    · simp [GoMap.get?]
    · have h : (("app" : String) == "version") = false := by decide
      simp [GoMap.get?, List.find?, h]
  exact ⟨hc, hc, rfl, rfl, ⟨_, rfl, hc⟩, rfl, rfl⟩

/-! ## Theorems: the port loop of `DeployNode` -/

theorem foldl_append_singleton {α β : Type} (f : α → β) (l : List α) : ∀ init : List β,
    l.foldl (fun acc x => acc ++ [f x]) init = init ++ l.map f := by
  induction l with
  | nil => intro init; simp
  | cons a t ih => intro init; simp [ih]

theorem DeployNode_containerPorts_eq (ports : List Int) :
    DeployNode_containerPorts ports = ports.map portOf := by
  unfold DeployNode_containerPorts
  exact foldl_append_singleton portOf ports []

theorem int32OfInt_of_port (p : Int) (h1 : 1 ≤ p) (h2 : p ≤ 65535) : int32OfInt p = p := by
  unfold int32OfInt
  omega

/-- C10: when every requested port lies in 1..65535, the single container of
the descriptor of `DeployNode` has one port entry per requested port, in the
same order: the `i`-th entry has container port equal to the `i`-th requested
port, protocol TCP and name `http-` followed by the decimal rendering of the
port. -/
theorem DeployNode_ports (deployData : DeployData)
    (envsRange volumesRange : List (String × String))
    (hports : ∀ p ∈ deployData.Ports, 1 ≤ p ∧ p ≤ 65535) :
    ∃ c : Container,
      (DeployNode_deploySpec deployData envsRange volumesRange).Spec.Template.Spec.Containers
        = [c] ∧
      c.Ports.length = deployData.Ports.length ∧
      c.Ports = deployData.Ports.map
        (fun p => { Name := "http-" ++ sprintf_d p, Protocol := "TCP", ContainerPort := p }) ∧
      ∀ (i : Nat) (p : Int), deployData.Ports.get? i = some p →
        c.Ports.get? i =
          some { Name := "http-" ++ sprintf_d p, Protocol := "TCP", ContainerPort := p } := by
  have hmap : DeployNode_containerPorts deployData.Ports = deployData.Ports.map
      (fun p => { Name := "http-" ++ sprintf_d p, Protocol := "TCP", ContainerPort := p }) := by
    rw [DeployNode_containerPorts_eq]
    apply List.map_congr_left
    intro p hp
    simp only [portOf, ProtocolTCP, int32OfInt_of_port p (hports p hp).1 (hports p hp).2]
  refine ⟨_, rfl, ?_, ?_, ?_⟩
  · simp only [hmap, List.length_map]
  · exact hmap
  · intro i p hi
    simp only [hmap, List.get?_eq_getElem?, List.getElem?_map] at hi ⊢
    rw [hi]
    rfl

/-- Witness of C10: the requested port 8080 gives one entry, named `http-8080`,
with protocol TCP and container port 8080. -/
theorem DeployNode_ports_witness :
    ∃ c : Container,
      (DeployNode_deploySpec
          { Name := "hello-world", NameSpace := "demo", Replicas := 2, Labels := [],
            Image := "registry/demo/hello-world:v1", Ports := [8080], Envs := [("ENV", "prod")],
            HostPathVolume := [] } [("ENV", "prod")] []).Spec.Template.Spec.Containers = [c] ∧
      c.Ports = [{ Name := "http-8080", Protocol := "TCP", ContainerPort := 8080 }] := by
  obtain ⟨c, hc, _, hp, _⟩ := DeployNode_ports
    { Name := "hello-world", NameSpace := "demo", Replicas := 2, Labels := [],
      Image := "registry/demo/hello-world:v1", Ports := [8080], Envs := [("ENV", "prod")],
      HostPathVolume := [] } [("ENV", "prod")] []
    (by intro p hp; simp only [List.mem_singleton] at hp; subst hp; decide)
  refine ⟨c, hc, ?_⟩
  rw [hp]
  decide

/-! ## Theorems: names of the container ports -/

theorem toDigits_ne_cons_self (n k : Nat) (c : Char) (hc : digitValue c = 0)
    (h : Nat.toDigits 10 n = c :: Nat.toDigits 10 k) : False := by
  have h1 := congrArg decimalValue h
  have h2 : decimalValue (c :: Nat.toDigits 10 k) = decimalValue (Nat.toDigits 10 k) := by
    simp [decimalValue, hc]
  rw [h2, decimalValue_toDigits, decimalValue_toDigits] at h1
  rw [h1] at h
  have h3 := congrArg List.length h
  simp at h3

theorem sprintf_d_injective : Function.Injective sprintf_d := by
  intro a b h
  have hminus : digitValue (Char.ofNat 45) = 0 := by decide
  cases a with
  | ofNat m =>
    cases b with
    | ofNat n =>
      have h1 : Nat.repr m = Nat.repr n := h
      rw [Nat_repr_injective h1]
    | negSucc n =>
      exfalso
      have h1 : Nat.repr m = "-" ++ Nat.repr (n + 1) := h
      have h2 := congrArg String.data h1
      exact toDigits_ne_cons_self m (n + 1) (Char.ofNat 45) hminus
        (by simpa [Nat.repr, List.asString] using h2)
  | negSucc m =>
    cases b with
    | ofNat n =>
      exfalso
      have h1 : "-" ++ Nat.repr (m + 1) = Nat.repr n := h
      have h2 := congrArg String.data h1
      exact toDigits_ne_cons_self n (m + 1) (Char.ofNat 45) hminus
        (by simpa [Nat.repr, List.asString] using h2.symm)
    | negSucc n =>
      have h1 : "-" ++ Nat.repr (m + 1) = "-" ++ Nat.repr (n + 1) := h
      have h2 := Nat_repr_injective (String_append_left_cancel _ _ _ h1)
      have h3 : m = n := by omega
      rw [h3]

theorem portOf_name_injective (p q : Int) (h : (portOf p).Name = (portOf q).Name) : p = q :=
  sprintf_d_injective (String_append_left_cancel _ _ _ h)

/-- C11 (counterexample): when the port 8080 is requested twice, the two
entries of the container's port list, at positions 0 and 1, carry the same name
`http-8080`. -/
theorem DeployNode_port_names_repeat :
    ((DeployNode_deploySpec
        { Name := "hello-world", NameSpace := "demo", Replicas := 2, Labels := [],
          Image := "registry/demo/hello-world:v1", Ports := [8080, 8080], Envs := [],
          HostPathVolume := [] } [] []).Spec.Template.Spec.Containers.flatMap
        Container.Ports).map ContainerPort.Name = ["http-8080", "http-8080"] := by
  decide

/-- C11 (amended): when the requested ports are pairwise distinct, any two
entries of the container's port list at different positions have different
names; and for every `DeployData`, two entries carry the same name only if they
were made from the same requested port. -/
theorem DeployNode_port_names_distinct (deployData : DeployData)
    (envsRange volumesRange : List (String × String)) :
    (deployData.Ports.Nodup →
      (((DeployNode_deploySpec deployData envsRange volumesRange).Spec.Template.Spec.Containers.flatMap
          Container.Ports).map ContainerPort.Name).Nodup ∧
      ∀ (i j : Nat) (a b : ContainerPort), i ≠ j →
        ((DeployNode_deploySpec deployData envsRange
          volumesRange).Spec.Template.Spec.Containers.flatMap Container.Ports).get? i = some a →
        ((DeployNode_deploySpec deployData envsRange
          volumesRange).Spec.Template.Spec.Containers.flatMap Container.Ports).get? j = some b →
        a.Name ≠ b.Name) ∧
    ∀ (i j : Nat) (p q : Int) (a b : ContainerPort),
      deployData.Ports.get? i = some p → deployData.Ports.get? j = some q →
      ((DeployNode_deploySpec deployData envsRange
        volumesRange).Spec.Template.Spec.Containers.flatMap Container.Ports).get? i = some a →
      ((DeployNode_deploySpec deployData envsRange
        volumesRange).Spec.Template.Spec.Containers.flatMap Container.Ports).get? j = some b →
      a.Name = b.Name → p = q := by
  have hports : (DeployNode_deploySpec deployData envsRange
      volumesRange).Spec.Template.Spec.Containers.flatMap Container.Ports =
      deployData.Ports.map portOf := by
    simp [DeployNode_deploySpec, DeployNode_containerPorts_eq]
  rw [hports]
  have hnames : ∀ l : List Int, l.Nodup → ((l.map portOf).map ContainerPort.Name).Nodup := by
    intro l hl
    rw [List.map_map]
    exact List.Nodup.map (fun p q h => portOf_name_injective p q h) hl
  constructor
  · intro hnd
    refine ⟨hnames _ hnd, ?_⟩
    intro i j a b hij hi hj hab
    have h1 := hnames _ hnd
    rw [List.nodup_iff_getElem?_ne_getElem?] at h1
    have hi2 : ((deployData.Ports.map portOf).map ContainerPort.Name)[i]? = some a.Name := by
      rw [List.get?_eq_getElem?] at hi
      rw [List.getElem?_map, hi]
      rfl
    have hj2 : ((deployData.Ports.map portOf).map ContainerPort.Name)[j]? = some b.Name := by
      rw [List.get?_eq_getElem?] at hj
      rw [List.getElem?_map, hj]
      rfl
    have hlen : ∀ (k : Nat) (x : String),
        ((deployData.Ports.map portOf).map ContainerPort.Name)[k]? = some x →
        k < ((deployData.Ports.map portOf).map ContainerPort.Name).length := by
      intro k x hk
      by_contra hge
      rw [List.getElem?_eq_none (by omega)] at hk
      cases hk
    rcases Nat.lt_or_gt_of_ne hij with hlt | hgt
    · exact h1 i j hlt (hlen j _ hj2) (by rw [hi2, hj2, hab])
    · exact h1 j i hgt (hlen i _ hi2) (by rw [hi2, hj2, hab])
  · intro i j p q a b hp hq hi hj hab
    rw [List.get?_eq_getElem?] at hp hq hi hj
    rw [List.getElem?_map, hp] at hi
    rw [List.getElem?_map, hq] at hj
    simp only [Option.map_some', Option.some.injEq] at hi hj
    rw [← hi, ← hj] at hab
    exact portOf_name_injective p q hab

/-- Witness of C11: the distinct ports 8080 and 9090 give the distinct names
`http-8080` and `http-9090`. -/
theorem DeployNode_port_names_distinct_witness :
    (((DeployNode_deploySpec
        { Name := "hello-world", NameSpace := "demo", Replicas := 2, Labels := [],
          Image := "registry/demo/hello-world:v1", Ports := [8080, 9090], Envs := [],
          HostPathVolume := [] } [] []).Spec.Template.Spec.Containers.flatMap
        Container.Ports).map ContainerPort.Name).Nodup :=
  ((DeployNode_port_names_distinct
    { Name := "hello-world", NameSpace := "demo", Replicas := 2, Labels := [],
      Image := "registry/demo/hello-world:v1", Ports := [8080, 9090], Envs := [],
      HostPathVolume := [] } [] []).1 (by decide)).1

/-! ## Theorems: the env loop of `DeployNode` -/

theorem DeployNode_envs_eq (envsRange : List (String × String)) :
    DeployNode_envs envsRange = envsRange.map envOf := by
  unfold DeployNode_envs
  exact foldl_append_singleton envOf envsRange []

theorem envOf_injective : Function.Injective envOf := by
  intro a b h
  have h1 : a.1 = b.1 := congrArg EnvVar.Name h
  have h2 : a.2 = b.2 := congrArg EnvVar.Value h
  exact Prod.ext h1 h2

/-- C12: for an `Envs` mapping with distinct keys, visited in any order, the
environment list of the container of the descriptor of `DeployNode` has as many
entries as the mapping; for every key `k` with value `v` in the mapping exactly
one entry has name `k`, and exactly one entry has name `k` and value `v`; every
entry comes from an entry of the mapping; and two visiting orders give
rearrangements of the same list. -/
theorem DeployNode_env_entries (deployData : DeployData)
    (envsRange volumesRange envsRange2 volumesRange2 : List (String × String))
    (hwf : GoMap.WF deployData.Envs)
    (hrange : GoMap.IsRange deployData.Envs envsRange)
    (hrange2 : GoMap.IsRange deployData.Envs envsRange2) :
    ((DeployNode_deploySpec deployData envsRange volumesRange).Spec.Template.Spec.Containers.flatMap
        Container.Env).length = deployData.Envs.length ∧
    (∀ k v : String, (k, v) ∈ deployData.Envs →
      ((DeployNode_deploySpec deployData envsRange
          volumesRange).Spec.Template.Spec.Containers.flatMap Container.Env).count
        { Name := k, Value := v } = 1 ∧
      (((DeployNode_deploySpec deployData envsRange
          volumesRange).Spec.Template.Spec.Containers.flatMap Container.Env).map
        EnvVar.Name).count k = 1) ∧
    (∀ e ∈ (DeployNode_deploySpec deployData envsRange
        volumesRange).Spec.Template.Spec.Containers.flatMap Container.Env,
      (e.Name, e.Value) ∈ deployData.Envs) ∧
    ((DeployNode_deploySpec deployData envsRange volumesRange).Spec.Template.Spec.Containers.flatMap
        Container.Env).Perm
      ((DeployNode_deploySpec deployData envsRange2
        volumesRange2).Spec.Template.Spec.Containers.flatMap Container.Env) := by
  have henv : ∀ er vr, (DeployNode_deploySpec deployData er vr).Spec.Template.Spec.Containers.flatMap
      Container.Env = er.map envOf := by
    intro er vr
    simp [DeployNode_deploySpec, DeployNode_envs_eq]
  have hkeys : (envsRange.map Prod.fst).Nodup :=
    (List.Perm.nodup_iff (List.Perm.map Prod.fst hrange)).mpr hwf
  have hnd : envsRange.Nodup := List.Nodup.of_map Prod.fst hkeys
  rw [henv, henv]
  refine ⟨?_, ?_, ?_, ?_⟩
  · rw [List.length_map]
    exact List.Perm.length_eq hrange
  · intro k v hkv
    have hmem : (k, v) ∈ envsRange := (List.Perm.mem_iff hrange).mpr hkv
    constructor
    · have h1 : envOf (k, v) ∈ envsRange.map envOf := List.mem_map_of_mem _ hmem
      exact List.count_eq_one_of_mem (List.Nodup.map envOf_injective hnd) h1
    · have h2 : (envsRange.map envOf).map EnvVar.Name = envsRange.map Prod.fst := by
        rw [List.map_map]
        rfl
      rw [h2]
      exact List.count_eq_one_of_mem hkeys (List.mem_map_of_mem Prod.fst hmem)
  · intro e he
    rcases List.mem_map.mp he with ⟨kv, hkv, rfl⟩
    exact (List.Perm.mem_iff hrange).mp hkv
  · exact List.Perm.map envOf (List.Perm.trans hrange (List.Perm.symm hrange2))

/-- Witness of C12: the mapping with the two entries `ENV=prod` and `ZONE=eu`,
visited in the reverse of the listed order, gives two environment entries. -/
theorem DeployNode_env_entries_witness :
    ((DeployNode_deploySpec
        { Name := "hello-world", NameSpace := "demo", Replicas := 2, Labels := [],
          Image := "registry/demo/hello-world:v1", Ports := [8080],
          Envs := [("ENV", "prod"), ("ZONE", "eu")], HostPathVolume := [] }
        [("ZONE", "eu"), ("ENV", "prod")] []).Spec.Template.Spec.Containers.flatMap
        Container.Env).length = 2 :=
  (DeployNode_env_entries
    { Name := "hello-world", NameSpace := "demo", Replicas := 2, Labels := [],
      Image := "registry/demo/hello-world:v1", Ports := [8080],
      Envs := [("ENV", "prod"), ("ZONE", "eu")], HostPathVolume := [] }
    [("ZONE", "eu"), ("ENV", "prod")] [] [("ENV", "prod"), ("ZONE", "eu")] []
    (by simp [GoMap.WF]) (List.Perm.swap _ _ _) (List.Perm.refl _)).1

/-! ## Theorems: pull policy and replica count -/

/-- C13 (counterexample): the image `registry/demo/hello-world:v1` is
tag-addressed (it holds no digest), and the container `DeployNode` builds for it
has pull policy `IfNotPresent`, not `Always`. -/
theorem DeployNode_tag_image_not_always :
    isDigestAddressed "registry/demo/hello-world:v1" = false ∧
    ((DeployNode_deploySpec
        { Name := "hello-world", NameSpace := "demo", Replicas := 2, Labels := [],
          Image := "registry/demo/hello-world:v1", Ports := [8080], Envs := [("ENV", "prod")],
          HostPathVolume := [] } [("ENV", "prod")] []).Spec.Template.Spec.Containers.map
        Container.ImagePullPolicy) = ["IfNotPresent"] ∧
    ((DeployNode_deploySpec
        { Name := "hello-world", NameSpace := "demo", Replicas := 2, Labels := [],
          Image := "registry/demo/hello-world:v1", Ports := [8080], Envs := [("ENV", "prod")],
          HostPathVolume := [] } [("ENV", "prod")] []).Spec.Template.Spec.Containers.map
        Container.ImagePullPolicy) ≠ ["Always"] := by
  refine ⟨by decide, by decide, by decide⟩

/-- C13 (amended): the pull policy is fixed per builder and does not depend on
the image reference: the container of `Deploy` and of `ExtensionsV1beta1Deploy`,
whose image is composed as registry/project/app:tag, always has policy `Always`,
and the container of `DeployNode` always has policy `IfNotPresent`, whatever
`DeployData.Image` is. -/
theorem pull_policy_of_builders (app project imageTag dockerRegistry : String)
    (env : List EnvVar) (labels : GoMap) (ports : List ContainerPort)
    (replicas : Int) (force : Bool) (healthEndPoint nodeSelector : GoMap)
    (healthEndPointText : String) (selector : GoMap)
    (deployData : DeployData) (envsRange volumesRange : List (String × String)) :
    (Deploy_deploySpec app project imageTag dockerRegistry env labels ports replicas force
        healthEndPoint nodeSelector).Spec.Template.Spec.Containers.map
      (fun c => (c.Image, c.ImagePullPolicy)) =
      [(dockerRegistry ++ "/" ++ project ++ "/" ++ app ++ ":" ++ imageTag, "Always")] ∧
    (ExtensionsV1beta1Deploy_deploySpec app project imageTag dockerRegistry env labels ports
        replicas force healthEndPointText selector).Spec.Template.Spec.Containers.map
      (fun c => (c.Image, c.ImagePullPolicy)) =
      [(dockerRegistry ++ "/" ++ project ++ "/" ++ app ++ ":" ++ imageTag, "Always")] ∧
    (DeployNode_deploySpec deployData envsRange volumesRange).Spec.Template.Spec.Containers.map
      (fun c => (c.Image, c.ImagePullPolicy)) = [(deployData.Image, "IfNotPresent")] :=
  ⟨rfl, rfl, rfl⟩

/-- C14 (evaluation at the failing input): for `hello-world` in `demo` with
image tag `v1`, registry `registry` and 2 requested replicas, the descriptors of
`Deploy` and of `ExtensionsV1beta1Deploy` have replica count 1, not 2; the image
is `registry/demo/hello-world:v1`; and the descriptor of `DeployNode` has the
replica count of its `DeployData`. -/
theorem Deploy_replicas_hard_coded :
    (Deploy_deploySpec "hello-world" "demo" "v1" "registry" [] [] [] 2 false [] []).Spec.Replicas
      = some 1 ∧
    (ExtensionsV1beta1Deploy_deploySpec "hello-world" "demo" "v1" "registry" [] [] [] 2 false ""
      []).Spec.Replicas = some 1 ∧
    (Deploy_deploySpec "hello-world" "demo" "v1" "registry" [] [] [] 2 false [] []).Spec.Replicas
      ≠ some 2 ∧
    (Deploy_deploySpec "hello-world" "demo" "v1" "registry" [] [] [] 2 false []
        []).Spec.Template.Spec.Containers.map Container.Image
      = ["registry/demo/hello-world:v1"] ∧
    (DeployNode_deploySpec
        { Name := "hello-world", NameSpace := "demo", Replicas := 2, Labels := [],
          Image := "registry/demo/hello-world:v1", Ports := [8080], Envs := [("ENV", "prod")],
          HostPathVolume := [] } [("ENV", "prod")] []).Spec.Replicas = some 2 := by
  refine ⟨rfl, rfl, by decide, by decide, rfl⟩

/-! ## Theorems: malformed input of `ExtensionsV1beta1Deploy` -/

theorem strings_SplitAux_of_not_mem (sep : Char) (cs : List Char) : ∀ cur : List Char,
    sep ∉ cs → strings_SplitAux sep cs cur = [String.mk (cur.reverse ++ cs)] := by
  induction cs with
  | nil => intro cur _; simp [strings_SplitAux]
  | cons c t ih =>
    intro cur h
    have hc : c ≠ sep := fun e => h (by rw [e]; exact List.mem_cons_self _ _)
    have ht : sep ∉ t := fun e => h (List.mem_cons_of_mem _ e)
    rw [strings_SplitAux, if_neg hc, ih (c :: cur) ht]
    simp

theorem selector_panics_without_separator (nodeSelector : String)
    (hne : nodeSelector ≠ "") (hsep : Char.ofNat 61 ∉ nodeSelector.data) :
    ExtensionsV1beta1Deploy_selector nodeSelector =
      Except.error (Panic.indexOutOfRange 1 1) := by
  unfold ExtensionsV1beta1Deploy_selector
  rw [if_pos hne]
  unfold strings_Split
  rw [strings_SplitAux_of_not_mem _ _ [] hsep]
  rfl

theorem ExtensionsV1beta1Deploy_panics_without_separator {σ Loose : Type} (L : Lib Loose)
    (d : DeploymentClient σ) (s : σ) (app project imageTag dockerRegistry : String)
    (env : Loose) (labels : GoMap) (ports : Loose)
    (replicas : Int) (force : Bool) (healthEndPoint nodeSelector : String)
    (hne : nodeSelector ≠ "") (hsep : Char.ofNat 61 ∉ nodeSelector.data) :
    ExtensionsV1beta1Deploy L d s app project imageTag dockerRegistry env labels ports replicas
      force healthEndPoint nodeSelector = Except.error (Panic.indexOutOfRange 1 1) := by
  unfold ExtensionsV1beta1Deploy
  rw [selector_panics_without_separator nodeSelector hne hsep]

/-- C15 (evaluation at the failing input): for the node selector `gpu`, which
is not empty and holds no `=`, `ExtensionsV1beta1Deploy` ends in the run-time
panic of the index expression `[1]` on a slice of length 1. -/
theorem ExtensionsV1beta1Deploy_selector_panic :
    ExtensionsV1beta1Deploy sampleLib (newDeployment acceptingClient) ()
        "hello-world" "demo" "v1" "registry" () [] () 2 false "" "gpu" =
      Except.error (Panic.indexOutOfRange 1 1) :=
  ExtensionsV1beta1Deploy_panics_without_separator sampleLib (newDeployment acceptingClient) ()
    "hello-world" "demo" "v1" "registry" () [] () 2 false "" "gpu" (by decide) (by decide)

/-- C16 (evaluation at the failing input): for the env value and the ports
value `not-a-list`, a string, from which no entry can be converted, the two
copies leave the empty slices and report nothing, and `ExtensionsV1beta1Deploy`
still calls update, with a descriptor whose environment list and port list are
empty, and returns a nil error. -/
theorem ExtensionsV1beta1Deploy_submits_empty_lists :
    stringSourceLib.copyEnv [] "not-a-list" = ([], none) ∧
    stringSourceLib.copyPorts [] "not-a-list" = ([], none) ∧
    ∃ r, ExtensionsV1beta1Deploy stringSourceLib (newDeployment acceptingClient) ()
        "hello-world" "demo" "v1" "registry" "not-a-list" [] "not-a-list" 2 false "" ""
        = Except.ok r ∧
      r.calls = [Call.update "demo" (ExtensionsV1beta1Deploy_deploySpec "hello-world" "demo" "v1"
        "registry" [] [] [] 2 false "" [])] ∧
      r.ret.2 = none ∧
      (r.submitted.flatMap fun x => x.Spec.Template.Spec.Containers.map
        fun c => (c.Env, c.Ports)) = [([], [])] := by
  refine ⟨rfl, rfl, _, rfl, by decide, by decide, by decide⟩

/-! ## Theorems: `Delete`, the force flag, and the returned texts -/

/-- C17: for every name, namespace and delete options, `Delete` makes exactly
one client call, the delete of `name` with the given options on the collection
of `namespace`; it makes no update call, no create call and no second attempt;
and it returns exactly the value that call returned, leaving the client in the
state that call left. -/
theorem Delete_single_call {σ : Type} (d : DeploymentClient σ) (s : σ)
    (name namespace_ : String) (option : Option DeleteOptions) :
    (Delete d s name namespace_ option).calls = [Call.delete namespace_ name option] ∧
    (Delete d s name namespace_ option).calls.filter Call.isUpdate = [] ∧
    (Delete d s name namespace_ option).calls.filter Call.isCreate = [] ∧
    (Delete d s name namespace_ option).ret = (d.clientSet.delete namespace_ name option s).1 ∧
    (Delete d s name namespace_ option).state = (d.clientSet.delete namespace_ name option s).2 :=
  ⟨rfl, rfl, rfl, rfl, rfl⟩

/-- C18: two invocations of `Deploy`, and two invocations of
`ExtensionsV1beta1Deploy`, that differ only in the value of `force`, against the
same client in the same state, build the same descriptor and give the same run:
the same sequence of client calls, the same returned values and the same client
state. -/
theorem force_not_wired {σ Loose : Type} (L : Lib Loose) (d : DeploymentClient σ) (s : σ)
    (app project imageTag dockerRegistry : String)
    (env : List EnvVar) (labels : GoMap) (ports : List ContainerPort)
    (replicas : Int) (force1 force2 : Bool) (healthEndPoint nodeSelector : GoMap)
    (envLoose portsLoose : Loose) (healthEndPointText nodeSelectorText : String)
    (selector : GoMap) :
    Deploy_deploySpec app project imageTag dockerRegistry env labels ports replicas force1
        healthEndPoint nodeSelector =
      Deploy_deploySpec app project imageTag dockerRegistry env labels ports replicas force2
        healthEndPoint nodeSelector ∧
    Deploy d s app project imageTag dockerRegistry env labels ports replicas force1
        healthEndPoint nodeSelector =
      Deploy d s app project imageTag dockerRegistry env labels ports replicas force2
        healthEndPoint nodeSelector ∧
    ExtensionsV1beta1Deploy_deploySpec app project imageTag dockerRegistry env labels ports
        replicas force1 healthEndPointText selector =
      ExtensionsV1beta1Deploy_deploySpec app project imageTag dockerRegistry env labels ports
        replicas force2 healthEndPointText selector ∧
    ExtensionsV1beta1Deploy L d s app project imageTag dockerRegistry envLoose labels portsLoose
        replicas force1 healthEndPointText nodeSelectorText =
      ExtensionsV1beta1Deploy L d s app project imageTag dockerRegistry envLoose labels portsLoose
        replicas force2 healthEndPointText nodeSelectorText :=
  ⟨rfl, rfl, rfl, rfl⟩

theorem created_text_ne_empty (t : String) : "Created deployment " ++ t ++ ".\n" ≠ "" := by
  intro h
  have h1 := congrArg String.length h
  simp only [String.length_append] at h1
  have h2 : ("Created deployment " : String).length = 19 := by decide
  have h3 : ("" : String).length = 0 := rfl
  omega

/-- C19: whenever the node selector lets `ExtensionsV1beta1Deploy` reach the
client (the local `selector` map is built), the operation returns; when the
update succeeds the returned string is empty; when the update fails the returned
string is `Created deployment `, the `%q` rendering of the value the failed
update returned, and `.` with a newline, which is not empty whatever create
answers; and a second client that gives the same update result returns the same
string, whatever its create returns. -/
theorem ExtensionsV1beta1Deploy_returned_text {σ Loose : Type} (L : Lib Loose)
    (d d2 : DeploymentClient σ) (s : σ) (app project imageTag dockerRegistry : String)
    (env : Loose) (labels : GoMap) (ports : Loose)
    (replicas : Int) (force : Bool) (healthEndPoint nodeSelector : String) (selector : GoMap)
    (hsel : ExtensionsV1beta1Deploy_selector nodeSelector = Except.ok selector)
    (hsame : (d2.clientSet.update project
        (ExtensionsV1beta1Deploy_deploySpec app project imageTag dockerRegistry
          (L.copyEnv [] env).1 labels (L.copyPorts [] ports).1 replicas force healthEndPoint
          selector) s).1 =
      (d.clientSet.update project
        (ExtensionsV1beta1Deploy_deploySpec app project imageTag dockerRegistry
          (L.copyEnv [] env).1 labels (L.copyPorts [] ports).1 replicas force healthEndPoint
          selector) s).1) :
    ∃ r r2, ExtensionsV1beta1Deploy L d s app project imageTag dockerRegistry env labels ports
        replicas force healthEndPoint nodeSelector = Except.ok r ∧
      ExtensionsV1beta1Deploy L d2 s app project imageTag dockerRegistry env labels ports
        replicas force healthEndPoint nodeSelector = Except.ok r2 ∧
      ((d.clientSet.update project
          (ExtensionsV1beta1Deploy_deploySpec app project imageTag dockerRegistry
            (L.copyEnv [] env).1 labels (L.copyPorts [] ports).1 replicas force healthEndPoint
            selector) s).1.2 = none → r.ret.1 = "") ∧
      ((d.clientSet.update project
          (ExtensionsV1beta1Deploy_deploySpec app project imageTag dockerRegistry
            (L.copyEnv [] env).1 labels (L.copyPorts [] ports).1 replicas force healthEndPoint
            selector) s).1.2 ≠ none →
        r.ret.1 = "Created deployment " ++ L.sprintf_q (d.clientSet.update project
          (ExtensionsV1beta1Deploy_deploySpec app project imageTag dockerRegistry
            (L.copyEnv [] env).1 labels (L.copyPorts [] ports).1 replicas force healthEndPoint
            selector) s).1.1 ++ ".\n" ∧
        r.ret.1 ≠ "") ∧
      r2.ret.1 = r.ret.1 := by
  unfold ExtensionsV1beta1Deploy
  rw [hsel]
  dsimp only
  rw [hsame]
  by_cases hu : (d.clientSet.update project
      (ExtensionsV1beta1Deploy_deploySpec app project imageTag dockerRegistry
        (L.copyEnv [] env).1 labels (L.copyPorts [] ports).1 replicas force healthEndPoint
        selector) s).1.2 = none
  · rw [if_pos hu, if_pos hu]
    exact ⟨_, _, rfl, rfl, fun _ => rfl, fun h => absurd hu h, rfl⟩
  · rw [if_neg hu, if_pos hu, if_neg hu, if_pos hu]
    exact ⟨_, _, rfl, rfl, fun h => absurd h hu,
      fun _ => ⟨rfl, created_text_ne_empty _⟩, rfl⟩

/-- Witness of C19: with an empty node selector, against the client whose
update fails with a conflict, the operation returns and the returned string is
the `Created deployment` text. -/
theorem ExtensionsV1beta1Deploy_returned_text_witness :
    ∃ r, ExtensionsV1beta1Deploy sampleLib (newDeployment (failingUpdateClient conflictError)) ()
        "hello-world" "demo" "v1" "registry" () [] () 2 false "" "" = Except.ok r ∧
      r.ret.1 = "Created deployment <deployment>.\n" := by
  obtain ⟨r, _, hr, _, _, hfail, _⟩ := ExtensionsV1beta1Deploy_returned_text sampleLib
    (newDeployment (failingUpdateClient conflictError))
    (newDeployment (failingUpdateClient conflictError)) ()
    "hello-world" "demo" "v1" "registry" () [] () 2 false "" "" [] rfl rfl
  exact ⟨r, hr, (hfail (by decide)).1⟩

/-- C20: for every `DeployData` and every client, `DeployNode` makes exactly
one call, a create on the collection of `DeployData.NameSpace`, and no update
call; if the create fails it returns the empty string together with the create
error; if the create succeeds it returns a nil error and the JSON rendering of
the descriptor the create returned.  On the model cluster, when the workload is
already stored the create answers already-exists, and `DeployNode` returns that
error and leaves the cluster as it was. -/
theorem DeployNode_create_only {σ Loose : Type} (L : Lib Loose) (d : DeploymentClient σ) (s : σ)
    (deployData : DeployData) (envsRange volumesRange : List (String × String))
    (cl : Cluster) :
    (DeployNode L d s deployData envsRange volumesRange).calls =
      [Call.create deployData.NameSpace
        (DeployNode_deploySpec deployData envsRange volumesRange)] ∧
    (DeployNode L d s deployData envsRange volumesRange).calls.filter Call.isUpdate = [] ∧
    ((d.clientSet.create deployData.NameSpace
        (DeployNode_deploySpec deployData envsRange volumesRange) s).1.2 ≠ none →
      (DeployNode L d s deployData envsRange volumesRange).ret =
        ("", (d.clientSet.create deployData.NameSpace
          (DeployNode_deploySpec deployData envsRange volumesRange) s).1.2)) ∧
    ((d.clientSet.create deployData.NameSpace
        (DeployNode_deploySpec deployData envsRange volumesRange) s).1.2 = none →
      (DeployNode L d s deployData envsRange volumesRange).ret =
        (L.json_Marshal (d.clientSet.create deployData.NameSpace
          (DeployNode_deploySpec deployData envsRange volumesRange) s).1.1, none)) ∧
    (Cluster.has cl deployData.NameSpace deployData.Name = true →
      (DeployNode L (newDeployment modelClient) cl deployData envsRange volumesRange).ret =
        ("", some ⟨ErrKind.alreadyExists, "already exists"⟩) ∧
      (DeployNode L (newDeployment modelClient) cl deployData envsRange volumesRange).state
        = cl) := by
  refine ⟨?_, ?_, ?_, ?_, ?_⟩
  · unfold DeployNode
    dsimp only
    split_ifs <;> rfl
  · unfold DeployNode
    dsimp only
    split_ifs <;> rfl
  · intro h
    unfold DeployNode
    dsimp only
    rw [if_pos h]
  · intro h
    unfold DeployNode
    dsimp only
    rw [if_neg (by rw [h]; exact fun h2 => h2 rfl)]
  · intro h
    have h1 : Cluster.has cl deployData.NameSpace
        (DeployNode_deploySpec deployData envsRange volumesRange).ObjectMeta.Name = true := h
    simp [DeployNode, modelClient, newDeployment, h1]

/-- Witness of C20: on the model cluster that already stores `hello-world` in
`demo`, `DeployNode` returns the already-exists error of its create. -/
theorem DeployNode_create_only_witness :
    (DeployNode sampleLib (newDeployment modelClient)
        [("demo", Deploy_deploySpec "hello-world" "demo" "v1" "registry" [] [] [] 2 false [] [])]
        { Name := "hello-world", NameSpace := "demo", Replicas := 2, Labels := [],
          Image := "registry/demo/hello-world:v1", Ports := [8080], Envs := [("ENV", "prod")],
          HostPathVolume := [] } [("ENV", "prod")] []).ret =
      ("", some ⟨ErrKind.alreadyExists, "already exists"⟩) :=
  ((DeployNode_create_only sampleLib (newDeployment modelClient)
    [("demo", Deploy_deploySpec "hello-world" "demo" "v1" "registry" [] [] [] 2 false [] [])]
    { Name := "hello-world", NameSpace := "demo", Replicas := 2, Labels := [],
      Image := "registry/demo/hello-world:v1", Ports := [8080], Envs := [("ENV", "prod")],
      HostPathVolume := [] } [("ENV", "prod")] []
    [("demo", Deploy_deploySpec "hello-world" "demo" "v1" "registry" [] [] [] 2 false [] [])]).2.2.2.2
    (by decide)).1

end Kube
